import Mathlib

/-!
Shallow embedding of the `AutomaticCameraCalibrator` module
(`Src/Modules/Configuration/CameraCalibrator/AutomaticCameraCalibrator.cpp`).

Conventions used throughout this development:

* Exact rational arithmetic (`ℚ`) stands in for `float`; angles are measured in
  degrees, so the literal `1` corresponds to the source's `1_deg` and `360` to
  `360_deg`.  A non-finite optimizer step is represented by `Option.none`.
* External collaborators that are not part of the calibrator's own sources
  (the Gauss-Newton `iterate` call, the per-sample error `functor`, the
  sub-pixel line fitter used inside `recordSamples`, the transcendental
  `calculateAngle`, the random generator `rand`, and the `Geometry` distance
  helpers) are parameters of the embedding, gathered in `CalibrationEnv`.
* Euclidean point-to-line distances are represented by their squares so that
  all comparisons stay inside `ℚ`; each distance the source compares against a
  nonnegative threshold is nonnegative, so comparing squares is equivalent.
* Configuration constants that live in the module's parameter list
  (`discardsUntilIncrease`, `increase`, `terminationCriterion`,
  `minSuccessiveConvergences`, `notValidError`, `minDisImage`,
  `fieldLinesWidth`) are likewise parameters of the embedding.
-/

namespace AutoCalib

/-- Two-dimensional vector over `ℚ`, the stand-in for `Vector2f`/`Vector2i`. -/
structure Vec2 where
  x : ℚ
  y : ℚ
deriving DecidableEq

instance : Add Vec2 := ⟨fun a b => ⟨a.x + b.x, a.y + b.y⟩⟩

instance : Sub Vec2 := ⟨fun a b => ⟨a.x - b.x, a.y - b.y⟩⟩

/-- Scalar multiplication on `Vec2` (the source's `* 0.5f` etc.). -/
def smul (c : ℚ) (v : Vec2) : Vec2 := ⟨c * v.x, c * v.y⟩

/-- Squared Euclidean norm, the stand-in for `squaredNorm()`. -/
def normSq (v : Vec2) : ℚ := v.x * v.x + v.y * v.y

/-- Two-dimensional cross product, used for point/line side tests. -/
def cross (a b : Vec2) : ℚ := a.x * b.y - a.y * b.x

/-- A line given by a base point and a direction, the stand-in for
`Geometry::Line`. -/
structure GLine where
  base : Vec2
  direction : Vec2
deriving DecidableEq

/-- Truncation toward zero, as C's `fmod` quotient uses. -/
def ratTrunc (q : ℚ) : ℤ := if 0 ≤ q then ⌊q⌋ else ⌈q⌉

/-- Exact model of `std::fmod` on the reals: `x - y * trunc (x / y)`. -/
def fmodQ (x y : ℚ) : ℚ := x - y * (ratTrunc (x / y) : ℚ)

/-- A closed interval with `float` bounds, the stand-in for `Rangef`.
Modelled from the spec: the `Rangef` class itself is not among the sources;
its `isInside` is interval membership. -/
structure Rangef where
  min : ℚ
  max : ℚ
deriving DecidableEq

/-- Modelled from the spec: `Rangef::isInside`, membership in the closed
interval. -/
def Rangef.isInside (r : Rangef) (t : ℚ) : Bool := decide (r.min ≤ t ∧ t ≤ r.max)

/-- The two cameras of the robot head (`CameraInfo::Camera`). -/
inductive CameraSide where
  | upper
  | lower
deriving DecidableEq

/-- The calibration run states (`CameraCalibrationStatus::State`). -/
inductive RunState where
  | idle
  | recordSamples
  | optimize
deriving DecidableEq

/-- The closed set of sample kinds (`SampleType`), in the source's enumeration
order. -/
inductive SampleType where
  | cornerAngle
  | parallelAngle
  | parallelLinesDistance
  | goalAreaDistance
  | groundLineDistance
deriving DecidableEq, Fintype

/-- The enumeration index of a sample type (its position in the `enum`). -/
def SampleType.idx : SampleType → Nat
  | .cornerAngle => 0
  | .parallelAngle => 1
  | .parallelLinesDistance => 2
  | .goalAreaDistance => 3
  | .groundLineDistance => 4

/-- All sample types in enumeration order (what `FOREACH_ENUM` iterates). -/
def sampleTypeList : List SampleType :=
  [.cornerAngle, .parallelAngle, .parallelLinesDistance, .goalAreaDistance,
   .groundLineDistance]

/-- Test of `sampleTypes & bit(sampleType)` on the requested-types bitmask. -/
def hasType (mask : Nat) (t : SampleType) : Bool := mask &&& (2 ^ t.idx) != 0

/-- One sample configuration (`AutomaticCameraCalibrator::SampleConfiguration`). -/
structure SampleConfiguration where
  camera : CameraSide
  headPan : ℚ
  headTilt : ℚ
  sampleTypes : Nat
  sampleIndexBase : Nat
deriving DecidableEq

/-- The global sample table: one optional slot per requested (configuration,
type) pair.  Sample payloads play no role in the verified claims, so a slot
holds `Option Unit`. -/
abbrev SampleTable := List (Option Unit)

/-- The table slot of a sample type: the base index plus the number of
requested types that precede it in enumeration order (the `FOREACH_ENUM`
prefix count in `needToRecord`/`record`). -/
def SampleConfiguration.slot (cfg : SampleConfiguration) (t : SampleType) : Nat :=
  cfg.sampleIndexBase +
    (sampleTypeList.filter (fun x => x.idx < t.idx ∧ hasType cfg.sampleTypes x)).length

/-- `SampleConfiguration::needToRecord`: the type is requested and its slot is
still empty. -/
def SampleConfiguration.needToRecord (cfg : SampleConfiguration)
    (samples : SampleTable) (t : SampleType) : Bool :=
  if hasType cfg.sampleTypes t then (samples.getD (cfg.slot t) none).isNone
  else false

/-- `SampleConfiguration::record`: store a sample in the type's slot. -/
def SampleConfiguration.record (cfg : SampleConfiguration)
    (samples : SampleTable) (t : SampleType) (s : Unit) : SampleTable :=
  samples.set (cfg.slot t) (some s)

/-- `SampleConfiguration::samplesExist`: every requested type's slot is
filled.  The source walks the types in enumeration order, bumping the slot
index for every requested type and failing on the first empty slot. -/
def SampleConfiguration.samplesExist (cfg : SampleConfiguration)
    (samples : SampleTable) : Bool :=
  (sampleTypeList.foldl
    (fun acc t =>
      if hasType cfg.sampleTypes t then
        (acc.1 && (samples.getD acc.2 none).isSome, acc.2 + 1)
      else acc)
    (true, cfg.sampleIndexBase)).1

/-- The `INCREASE_RANGE` macro: bump the discard counter if this cycle had a
discard and no acceptance, and widen the range (resetting the counter) once
the counter reaches the configured threshold.  Returns the new counter and
range. -/
def increaseRange (discardsUntilIncrease : Nat) (increase : ℚ)
    (discarded found : Bool) (numDiscarded : Nat) (range : Rangef) :
    Nat × Rangef :=
  let n := if discarded && !found then numDiscarded + 1 else numDiscarded
  if discardsUntilIncrease ≤ n then
    (0, ⟨range.min - increase, range.max + increase⟩)
  else (n, range)

/-- The inclusive range of integers from `lo` to `hi` (empty when `hi < lo`),
used to mirror the source's `for` loops over `int` indices. -/
def intRange (lo hi : ℤ) : List ℤ :=
  (List.range (hi + 1 - lo).toNat).map (fun k => lo + Int.ofNat k)

/-- One entry of the local-maximum list (`AutomaticCameraCalibrator::Maximum`). -/
structure Maximum where
  maxAcc : ℤ
  angleIndex : ℤ
  distanceIndex : ℤ
deriving DecidableEq

/-- The `localMaximum` lambda inside `determineLocalMaxima`: no cell within
±1 angle bucket (circular, modulo `numOfAngles`) and ±1 distance bucket
(clamped to the accumulator) holds a strictly greater value; the cell itself
is skipped. -/
def localMaximum (houghSpace : ℤ → ℤ → ℤ) (maxDisIndex : ℤ) (value : ℤ)
    (angleIndex distanceIndex numOfAngles : ℤ) : Bool :=
  (intRange (-1) 1).all fun i =>
    let index := (angleIndex + i + numOfAngles) % numOfAngles
    (intRange (max 0 (distanceIndex - 1)) (min (maxDisIndex - 1) (distanceIndex + 1))).all
      fun j =>
        (decide (index = angleIndex) && decide (j = distanceIndex)) ||
          decide (houghSpace index j ≤ value)

/-- The angle buckets visited by the scan loops of `calcHoughSpace` and
`determineLocalMaxima`: from `minIndex` up to (but excluding) `maxIndex`,
wrapping at `numOfAngles - 1` back to `0` when `minIndex > maxIndex`. -/
def scannedAngles (minIndex maxIndex numOfAngles : ℤ) : List ℤ :=
  if minIndex ≤ maxIndex then intRange minIndex (maxIndex - 1)
  else intRange minIndex (numOfAngles - 1) ++ intRange 0 (maxIndex - 1)

/-- `AutomaticCameraCalibrator::determineLocalMaxima`: report every nonzero
cell of the scanned sector that is a `localMaximum`, scanning angles in loop
order and distances upward. -/
def determineLocalMaxima (houghSpace : ℤ → ℤ → ℤ)
    (minIndex maxIndex numOfAngles maxDisIndex : ℤ) : List Maximum :=
  (scannedAngles minIndex maxIndex numOfAngles).flatMap fun angleIndex =>
    (intRange 0 (maxDisIndex - 1)).filterMap fun distanceIndex =>
      let value := houghSpace angleIndex distanceIndex
      if value ≠ 0 ∧
          localMaximum houghSpace maxDisIndex value angleIndex distanceIndex
            numOfAngles then
        some ⟨value, angleIndex, distanceIndex⟩
      else none

/-- The neighbourhood condition of `localMaximum`, as a proposition. -/
def NoGreaterNeighbour (houghSpace : ℤ → ℤ → ℤ)
    (maxDisIndex value angleIndex distanceIndex numOfAngles : ℤ) : Prop :=
  ∀ i, -1 ≤ i → i ≤ 1 →
    ∀ j, max 0 (distanceIndex - 1) ≤ j → j ≤ min (maxDisIndex - 1) (distanceIndex + 1) →
      ¬((angleIndex + i + numOfAngles) % numOfAngles = angleIndex ∧ j = distanceIndex) →
      houghSpace ((angleIndex + i + numOfAngles) % numOfAngles) j ≤ value

/-- The geometric data driving the candidate loop of
`AutomaticCameraCalibrator::fitLine` after the hough maxima are known.
`sdStart m`/`sdEnd m` are the signed distances (`Hyperplane::signedDistance`)
of candidate `m`'s intersections with the two perpendicular bounding lines
from the primary line; since signed distance is affine, the midpoint's signed
distance is their mean.  `projectionOk` is the outcome of
`CHECK_LINE_PROJECTION` for the refined endpoints of the primary line (an
external unprojection), and the absolute distance of a point equals the
absolute value of its signed distance. -/
structure FitScanEnv where
  sdStart : Maximum → ℚ
  sdEnd : Maximum → ℚ
  projectionOk : Bool
  minDisImage : ℚ
  fieldLinesWidth : ℚ

/-- Whether a non-primary maximum is a valid opposite-edge candidate: its two
intersection points lie on the same side of the primary line and each is at
least `minDisImage` away from it (the negation of the `continue` condition in
the source loop). -/
def validCandidate (env : FitScanEnv) (m : Maximum) : Bool :=
  (decide (env.sdStart m < 0) == decide (env.sdEnd m < 0)) &&
    !(decide (|env.sdStart m| < env.minDisImage)) &&
    !(decide (|env.sdEnd m| < env.minDisImage))

/-- The width offset assigned when candidate `m` is accepted: plus or minus
half the field-line width, positive when the candidate's midpoint lies on the
positive side of the primary line. -/
def candidateOffset (env : FitScanEnv) (m : Maximum) : ℚ :=
  if 0 < (env.sdStart m + env.sdEnd m) / 2 then env.fieldLinesWidth / 2
  else -(env.fieldLinesWidth / 2)

/-- The candidate loop of `fitLine`: skip invalid candidates; at the first
valid one, set the offset and return the projection check's verdict (`none`
models returning `false`, i.e. no corrected line). -/
def scanCandidates (env : FitScanEnv) : List Maximum → Option ℚ
  | [] => none
  | m :: rest =>
    if validCandidate env m then
      if env.projectionOk then some (candidateOffset env m) else none
    else scanCandidates env rest

/-- Insertion of a maximum into a list sorted by descending accumulator
value (used to model the source's `std::sort` with `a.maxAcc > b.maxAcc`). -/
def insertDesc (m : Maximum) : List Maximum → List Maximum
  | [] => [m]
  | x :: xs => if x.maxAcc < m.maxAcc then m :: x :: xs else x :: insertDesc m xs

/-- Sorting by descending accumulator value. -/
def sortDesc : List Maximum → List Maximum
  | [] => []
  | x :: xs => insertDesc x (sortDesc xs)

/-- Being sorted by descending accumulator value. -/
def sortedDescBy : List Maximum → Bool
  | [] => true
  | [_] => true
  | a :: b :: l => decide (b.maxAcc ≤ a.maxAcc) && sortedDescBy (b :: l)

/-- The maxima-selection core of `AutomaticCameraCalibrator::fitLine`: fail
unless more than one local maximum exists; otherwise sort the maxima by
descending accumulator value, treat the strongest as the primary line, and
scan the remaining candidates in order.  Returns the width offset of the
corrected line on success, `none` on failure. -/
def fitLineOffset (env : FitScanEnv) (localMaxima : List Maximum) : Option ℚ :=
  if 1 < localMaxima.length then scanCandidates env (sortDesc localMaxima).tail
  else none

/-- The six optimized parameter translations, with the source's enumerator
names as fields (`AutomaticCameraCalibrator::ParameterTranslations`). -/
structure Parameters where
  lowerCameraRollCorrection : ℚ
  lowerCameraTiltCorrection : ℚ
  upperCameraRollCorrection : ℚ
  upperCameraTiltCorrection : ℚ
  bodyRollCorrection : ℚ
  bodyTiltCorrection : ℚ
deriving DecidableEq

/-- The zero parameter vector (stand-in for a default-constructed
`Parameters`). -/
def zeroParameters : Parameters := ⟨0, 0, 0, 0, 0, 0⟩

/-- The six components of a parameter vector as a list. -/
def paramsList (p : Parameters) : List ℚ :=
  [p.lowerCameraRollCorrection, p.lowerCameraTiltCorrection,
   p.upperCameraRollCorrection, p.upperCameraTiltCorrection,
   p.bodyRollCorrection, p.bodyTiltCorrection]

/-- Componentwise sum of two parameter vectors (used only to state the
claim about perturbing the previous parameters). -/
def addParams (p q : Parameters) : Parameters :=
  ⟨p.lowerCameraRollCorrection + q.lowerCameraRollCorrection,
   p.lowerCameraTiltCorrection + q.lowerCameraTiltCorrection,
   p.upperCameraRollCorrection + q.upperCameraRollCorrection,
   p.upperCameraTiltCorrection + q.upperCameraTiltCorrection,
   p.bodyRollCorrection + q.bodyRollCorrection,
   p.bodyTiltCorrection + q.bodyTiltCorrection⟩

/-- The calibration output (`CameraCalibration`): the two per-camera rotation
corrections and the body rotation correction, six angle components in all. -/
structure CameraCalibration where
  lowerCameraRotX : ℚ
  lowerCameraRotY : ℚ
  upperCameraRotX : ℚ
  upperCameraRotY : ℚ
  bodyRotX : ℚ
  bodyRotY : ℚ
deriving DecidableEq

/-- The six angle components of a calibration as a list. -/
def calibList (c : CameraCalibration) : List ℚ :=
  [c.lowerCameraRotX, c.lowerCameraRotY, c.upperCameraRotX, c.upperCameraRotY,
   c.bodyRotX, c.bodyRotY]

/-- `AutomaticCameraCalibrator::pack`: read the parameter vector off a
calibration. -/
def pack (c : CameraCalibration) : Parameters :=
  ⟨c.lowerCameraRotX, c.lowerCameraRotY, c.upperCameraRotX, c.upperCameraRotY,
   c.bodyRotX, c.bodyRotY⟩

/-- `AutomaticCameraCalibrator::unpack`: write the parameter vector into a
calibration, normalising every component with `fmod(·, 360_deg)`. -/
def unpack (p : Parameters) : CameraCalibration :=
  ⟨fmodQ p.lowerCameraRollCorrection 360, fmodQ p.lowerCameraTiltCorrection 360,
   fmodQ p.upperCameraRollCorrection 360, fmodQ p.upperCameraTiltCorrection 360,
   fmodQ p.bodyRollCorrection 360, fmodQ p.bodyTiltCorrection 360⟩

/-- One detected line segment (`LinesPercept::Line`): image-space endpoints,
field-space endpoints, and the percept's field-space line through them. -/
structure LinePercept where
  firstImg : Vec2
  lastImg : Vec2
  firstField : Vec2
  lastField : Vec2
  line : GLine
deriving DecidableEq

/-- A refined line (`AutomaticCameraCalibrator::CorrectedLine`). -/
structure CorrectedLine where
  aInImage : Vec2
  bInImage : Vec2
  aOnField : Vec2
  bOnField : Vec2
  offset : ℚ
deriving DecidableEq

/-- Modelled from the spec: `Geometry::getDistanceToEdge` (the repository's
`Geometry` library is not among the sources) — the distance from a point to a
perceived line, represented by its square to stay in `ℚ`.  The source
compares this distance against the nonnegative threshold `100`, so comparing
the square against `100^2` is equivalent. -/
def distToEdgeSq (l : GLine) (p : Vec2) : ℚ :=
  cross l.direction (p - l.base) * cross l.direction (p - l.base) /
    normSq l.direction

/-- Modelled from the spec: `Geometry::isPointLeftOfLine`, the side test used
to make sure two perceived lines do not cross between their endpoints. -/
def isPointLeftOfLine (first last p : Vec2) : Bool :=
  decide (0 < cross (last - first) (p - first))

/-- The line through the image-space endpoints of a percept (used only to
state the claim about image-space distances). -/
def imgLine (l : LinePercept) : GLine := ⟨l.firstImg, l.lastImg - l.firstImg⟩

/-- A sample-configuration request
(`CalibrationRequest::SampleConfigurationRequest`). -/
structure SampleConfigurationRequest where
  index : Nat
  camera : CameraSide
  headPan : ℚ
  headTilt : ℚ
  sampleTypes : Nat
  doRecord : Bool
deriving DecidableEq

/-- Everything the module reads from outside during one cycle, together with
the abstracted external computations.  `iterate` models
`GaussNewtonOptimizer::iterate`, which updates the parameter vector in place
and returns the step delta (`none` models a non-finite delta).  `functorError`
models `Functor::operator()`, the per-sample error under a candidate
parameter vector.  `fit` models `fitLine` applied to a percept line's image
endpoints.  `calcAngleDeg` models `calculateAngle` (a `float` `acos`), in
degrees.  `signedDistToLine` and `distToLine` model
`Geometry::getDistanceToLineSigned` / `getDistanceToLine` on a corrected
line's field-space supporting line.  `rand` models the six consecutive
`rand() / RAND_MAX` draws of `resetOptimization`, each in `[0, 1]`. -/
structure CalibrationEnv where
  theCameraCalibration : CameraCalibration
  frameTime : Nat
  targetState : RunState
  totalNumOfSamples : Nat
  sampleConfigurationRequest : Option SampleConfigurationRequest
  hasImage : Bool
  camera : CameraSide
  cameraWidth : ℤ
  lines : List LinePercept
  penaltyMarkWasSeen : Bool
  penaltyMarkOnField : Vec2
  fit : Vec2 → Vec2 → Option CorrectedLine
  calcAngleDeg : Vec2 → Vec2 → Vec2 → Vec2 → ℚ
  signedDistToLine : GLine → Vec2 → ℚ
  distToLine : GLine → Vec2 → ℚ
  iterate : Parameters → Option ℚ × Parameters
  functorError : Parameters → Nat → ℚ
  numOfMeasurements : Nat
  notValidError : ℚ
  terminationCriterion : ℚ
  minSuccessiveConvergences : Nat
  rand : Fin 6 → ℚ
  discardsUntilIncrease : Nat
  increase : ℚ

/-- The module's persistent state between cycles. -/
structure ModuleState where
  state : RunState
  inStateSince : Nat
  samples : SampleTable
  numOfSamples : Nat
  lastSampleConfigurationIndex : ℤ
  currentSampleConfiguration : Option SampleConfiguration
  allRequiredFeaturesVisible : Bool
  parallelDisRangeLower : Rangef
  parallelDisRangeUpper : Rangef
  goalAreaDisRangeLower : Rangef
  goalAreaDisRangeUpper : Rangef
  groundLineDisRangeLower : Rangef
  groundLineDisRangeUpper : Rangef
  numOfDiscardedParallelLines : Nat
  numOfDiscardedGoalAreaLines : Nat
  numOfDiscardedGroundLines : Nat
  optimizerActive : Bool
  optimizationParameters : Parameters
  successiveConvergences : Nat
  optimizationSteps : Nat
  lowestDelta : Option ℚ
  lowestDeltaParameters : Parameters
  lowestError : ℚ
  lowestErrorParameters : Parameters
  nextCameraCalibration : CameraCalibration
deriving DecidableEq

/-- Comparison against `lowestDelta`, whose sentinel initial value
`std::numeric_limits<float>::max()` is modelled by `none` (any finite value
is below it). -/
def belowLowestDelta (d : ℚ) (lowest : Option ℚ) : Bool :=
  match lowest with
  | none => true
  | some v => decide (d < v)

/-- The fresh random parameter vector assigned by `resetOptimization(false)`:
each component is `rand()/RAND_MAX * 1_deg - 0.5_deg`, i.e. `rand i - 1/2`
in degrees. -/
def perturbedParameters (rand : Fin 6 → ℚ) : Parameters :=
  ⟨rand 0 - 1/2, rand 1 - 1/2, rand 2 - 1/2, rand 3 - 1/2, rand 4 - 1/2,
   rand 5 - 1/2⟩

/-- `AutomaticCameraCalibrator::resetOptimization`.  When `finished`, return
to the idle run state; otherwise assign every optimization parameter a fresh
random value in `[-0.5°, 0.5°]` and write the result to the calibration
output.  In both cases drop the optimizer instance, restore the
`lowestDelta` sentinel (discarding the best-tracked state; the source also
default-constructs `lowestDeltaParameters`, modelled as zero) and clear the
step counter. -/
def resetOptimization (env : CalibrationEnv) (finished : Bool)
    (s : ModuleState) : ModuleState :=
  let s :=
    if finished then { s with state := RunState.idle }
    else
      let p := perturbedParameters env.rand
      { s with optimizationParameters := p, nextCameraCalibration := unpack p }
  { s with optimizerActive := false, lowestDelta := none,
           lowestDeltaParameters := zeroParameters, optimizationSteps := 0 }

/-- The mean error over all samples at the current parameters (the `error`
accumulation in `optimize`). -/
def meanSampleError (env : CalibrationEnv) (s : ModuleState) : ℚ :=
  (((List.range s.samples.length).map
      (fun i => env.functorError s.optimizationParameters i)).sum) /
    ((s.samples.length : ℚ))

/-- The lowest-mean-error tracking along a convergence streak (the
`successiveConvergences > 0` block of `optimize`). -/
def updateLowestError (env : CalibrationEnv) (s : ModuleState) : ModuleState :=
  if s.successiveConvergences = 1 ∨ meanSampleError env s < s.lowestError then
    { s with lowestError := meanSampleError env s,
             lowestErrorParameters := s.optimizationParameters }
  else s

/-- The non-divergent tail of an optimization step (the part of
`AutomaticCameraCalibrator::optimize` after the divergence checks, with the
parameter vector already updated by `iterate`): track the lowest delta, count
the step, count successive convergences against the plateau termination
threshold, track the lowest mean error along a convergence streak, and either
accept (write the lowest-error parameters, return to idle via
`resetOptimization`) or write the current parameters to the output and
continue. -/
def optimizeAdvance (env : CalibrationEnv) (delta : ℚ) (s : ModuleState) :
    ModuleState :=
  let s :=
    if belowLowestDelta |delta| s.lowestDelta then
      { s with lowestDelta := some |delta|,
               lowestDeltaParameters := s.optimizationParameters }
    else s
  let s := { s with optimizationSteps := s.optimizationSteps + 1 }
  let s :=
    if |delta| <
        env.terminationCriterion *
          ((max 1 (s.optimizationSteps / 500 * 50) : ℕ) : ℚ) then
      { s with successiveConvergences := s.successiveConvergences + 1 }
    else { s with successiveConvergences := 0 }
  let s := if 0 < s.successiveConvergences then updateLowestError env s else s
  if env.minSuccessiveConvergences ≤ s.successiveConvergences then
    resetOptimization env true
      { s with nextCameraCalibration := unpack s.lowestErrorParameters }
  else
    { s with nextCameraCalibration := unpack s.optimizationParameters }

/-- One optimization step of an already-created optimizer: perform the
Gauss-Newton `iterate`, restart on divergence (non-finite delta, or any
sample error at or above `notValidError` under the new parameters), otherwise
continue with `optimizeAdvance`. -/
def optimizeStep (env : CalibrationEnv) (s : ModuleState) : ModuleState :=
  match env.iterate s.optimizationParameters with
  | (none, p') =>
    resetOptimization env false { s with optimizationParameters := p' }
  | (some delta, p') =>
    if (List.range env.numOfMeasurements).any
        (fun i => decide (env.notValidError ≤ env.functorError p' i)) then
      resetOptimization env false { s with optimizationParameters := p' }
    else optimizeAdvance env delta { s with optimizationParameters := p' }

/-- `AutomaticCameraCalibrator::optimize`.  On the first call create the
optimizer and seed the parameters from the current calibration; on every
further call perform one `optimizeStep`. -/
def optimize (env : CalibrationEnv) (s : ModuleState) : ModuleState :=
  if !s.optimizerActive then
    { s with optimizerActive := true,
             optimizationParameters := pack env.theCameraCalibration,
             successiveConvergences := 0 }
  else optimizeStep env s

/-- The ordered index triples `(i, j, k)` visited by the corner/parallel
search loops: `i` ranges over all lines, `j` over all lines distinct from
`i`, and `k` over lines after `j` distinct from `i`. -/
def tripleIndices (n : Nat) : List (Nat × Nat × Nat) :=
  (List.range n).flatMap fun i =>
    (List.range n).flatMap fun j =>
      if i = j then []
      else
        (List.range' (j + 1) (n - (j + 1))).filterMap fun k =>
          if i = k then none else some (i, j, k)

/-- The unordered index pairs `(i, j)` with `i < j` visited by the mark/line
search loops. -/
def pairIndices (n : Nat) : List (Nat × Nat) :=
  (List.range n).flatMap fun i =>
    (List.range' (i + 1) (n - (i + 1))).map fun j => (i, j)

/-- The `ADD_SAMPLE` macro: record a (unit) sample for the type if its slot is
requested and still empty. -/
def addSample (cfg : SampleConfiguration) (t : SampleType)
    (samples : SampleTable) : SampleTable :=
  if cfg.needToRecord samples t then cfg.record samples t () else samples

/-- The loop state of the corner/parallel triple search: the per-range
discard/acceptance flags, the sample table and the visibility flag. -/
structure TripleAcc where
  discarded : Bool
  found : Bool
  samples : SampleTable
  visible : Bool
deriving DecidableEq

/-- The body of the corner/parallel triple search for one triple `(i, j, k)`:
`i` is the candidate short connecting line and `j`, `k` the candidate long
orthogonal lines.  The source checks, in order: at least one endpoint of `i`
within distance 100 of the perceived (field-coordinate) line of `j` and
likewise of `k` (the source takes the `min` over the two endpoints);
neither `j`'s nor `k`'s field midpoint closer to the robot than `i`'s;
the pairwise angles reasonable.  A passing triple marks visibility; with
recording requested it refines the three lines, computes the signed ground
distance from `j`'s refined line to `k`'s refined midpoint, and accepts or
discards against the adaptive range. -/
def processTriple (env : CalibrationEnv) (cfg : SampleConfiguration)
    (doRecord : Bool) (range : Rangef) (acc : TripleAcc)
    (t : Nat × Nat × Nat) : TripleAcc :=
  match env.lines.get? t.1, env.lines.get? t.2.1, env.lines.get? t.2.2 with
  | some li, some lj, some lk =>
    if 100 ^ 2 <
        min (distToEdgeSq lj.line li.firstField)
          (distToEdgeSq lj.line li.lastField) then acc
    else if 100 ^ 2 <
        min (distToEdgeSq lk.line li.firstField)
          (distToEdgeSq lk.line li.lastField) then acc
    else if normSq (smul (1/2) (lj.firstField + lj.lastField)) <
          normSq (smul (1/2) (li.firstField + li.lastField)) ∨
        normSq (smul (1/2) (lk.firstField + lk.lastField)) <
          normSq (smul (1/2) (li.firstField + li.lastField)) then acc
    else if env.calcAngleDeg li.firstImg li.lastImg lj.firstImg lj.lastImg < 20 ∨
        160 < env.calcAngleDeg li.firstImg li.lastImg lj.firstImg lj.lastImg ∨
        env.calcAngleDeg li.firstImg li.lastImg lk.firstImg lk.lastImg < 20 ∨
        160 < env.calcAngleDeg li.firstImg li.lastImg lk.firstImg lk.lastImg ∨
        40 < env.calcAngleDeg lj.firstImg lj.lastImg lk.firstImg lk.lastImg then
      acc
    else
      let acc := { acc with visible := true }
      if !doRecord then acc
      else
        match env.fit li.firstImg li.lastImg, env.fit lj.firstImg lj.lastImg,
            env.fit lk.firstImg lk.lastImg with
        | some _, some c2, some c3 =>
          let distance := env.signedDistToLine
            ⟨c2.aOnField, c2.bOnField - c2.aOnField⟩
            (smul (1/2) (c3.aOnField + c3.bOnField))
          let combinedOffset :=
            if 0 < distance then c2.offset - c3.offset
            else c3.offset - c2.offset
          if range.isInside (|distance| - combinedOffset) then
            let acc := { acc with found := true }
            let samples := addSample cfg SampleType.cornerAngle acc.samples
            let samples := addSample cfg SampleType.parallelAngle samples
            let samples := addSample cfg SampleType.parallelLinesDistance samples
            { acc with samples := samples }
          else { acc with discarded := true }
        | _, _, _ => acc
  | _, _, _ => acc

/-- The corner/parallel search block of `recordSamples` (including its gating
condition and the trailing `INCREASE_RANGE`). -/
def cornerParallelSearch (env : CalibrationEnv) (cfg : SampleConfiguration)
    (doRecord : Bool) (s : ModuleState) : ModuleState :=
  let n := env.lines.length
  if 3 ≤ n ∧ n ≤ 8 ∧
      (cfg.needToRecord s.samples SampleType.cornerAngle = true ∨
       cfg.needToRecord s.samples SampleType.parallelAngle = true ∨
       cfg.needToRecord s.samples SampleType.parallelLinesDistance = true) ∧
      ¬(cfg.needToRecord s.samples SampleType.goalAreaDistance = true ∨
        cfg.needToRecord s.samples SampleType.groundLineDistance = true) then
    let range :=
      if cfg.camera = CameraSide.upper then s.parallelDisRangeUpper
      else s.parallelDisRangeLower
    let acc := (tripleIndices n).foldl (processTriple env cfg doRecord range)
      ⟨false, false, s.samples, s.allRequiredFeaturesVisible⟩
    let s := { s with samples := acc.samples,
                      allRequiredFeaturesVisible := acc.visible }
    if doRecord then
      let r := increaseRange env.discardsUntilIncrease env.increase
        acc.discarded acc.found s.numOfDiscardedParallelLines range
      if cfg.camera = CameraSide.upper then
        { s with numOfDiscardedParallelLines := r.1,
                 parallelDisRangeUpper := r.2 }
      else
        { s with numOfDiscardedParallelLines := r.1,
                 parallelDisRangeLower := r.2 }
    else s
  else s

/-- The loop state of the mark/line pair search. -/
structure PairAcc where
  discardedGoalArea : Bool
  foundGoalArea : Bool
  discardedGroundLine : Bool
  foundGroundLine : Bool
  samples : SampleTable
  visible : Bool
deriving DecidableEq

/-- The body of the mark/line pair search for one pair `(i, j)`: both lines
must span at least half the image width, must not cross between their
endpoints, and both field midpoints must be at least as far from the robot as
the penalty mark.  A passing pair marks visibility; with recording requested
the farther line becomes the ground line and the nearer the goal-area line,
both are refined, and the mark-to-line distances are accepted or discarded
against their adaptive ranges independently. -/
def processPair (env : CalibrationEnv) (cfg : SampleConfiguration)
    (doRecord : Bool) (goalAreaDisRange groundLineDisRange : Rangef)
    (acc : PairAcc) (p : Nat × Nat) : PairAcc :=
  match env.lines.get? p.1, env.lines.get? p.2 with
  | some li, some lj =>
    if |li.firstImg.x - li.lastImg.x| < ((env.cameraWidth / 2 : ℤ) : ℚ) ∨
        |lj.firstImg.x - lj.lastImg.x| < ((env.cameraWidth / 2 : ℤ) : ℚ) then acc
    else if isPointLeftOfLine li.firstField li.lastField lj.firstField ≠
        isPointLeftOfLine li.firstField li.lastField lj.lastField then acc
    else
      let sq1 := normSq (smul (1/2) (li.firstField + li.lastField))
      let sq2 := normSq (smul (1/2) (lj.firstField + lj.lastField))
      if min sq1 sq2 < normSq env.penaltyMarkOnField then acc
      else
        let acc := { acc with visible := true }
        if !doRecord then acc
        else
          let goalAreaImgs := if sq2 < sq1 then (lj.firstImg, lj.lastImg)
            else (li.firstImg, li.lastImg)
          let groundLineImgs := if sq2 < sq1 then (li.firstImg, li.lastImg)
            else (lj.firstImg, lj.lastImg)
          match env.fit goalAreaImgs.1 goalAreaImgs.2,
              env.fit groundLineImgs.1 groundLineImgs.2 with
          | some cGoalArea, some cGroundLine =>
            let goalAreaLineDistance := env.distToLine
              ⟨cGoalArea.aOnField, cGoalArea.bOnField - cGoalArea.aOnField⟩
              env.penaltyMarkOnField
            let groundLineDistance := env.distToLine
              ⟨cGroundLine.aOnField, cGroundLine.bOnField - cGroundLine.aOnField⟩
              env.penaltyMarkOnField
            let gaValid := goalAreaDisRange.isInside
              (goalAreaLineDistance - cGoalArea.offset)
            let glValid := groundLineDisRange.isInside
              (groundLineDistance - cGroundLine.offset)
            let acc := if gaValid then { acc with foundGoalArea := true }
              else { acc with discardedGoalArea := true }
            let acc := if glValid then { acc with foundGroundLine := true }
              else { acc with discardedGroundLine := true }
            if !(gaValid && glValid) then acc
            else
              let samples := addSample cfg SampleType.goalAreaDistance acc.samples
              let samples := addSample cfg SampleType.groundLineDistance samples
              let samples := addSample cfg SampleType.parallelAngle samples
              let samples := addSample cfg SampleType.parallelLinesDistance samples
              { acc with samples := samples }
          | _, _ => acc
  | _, _ => acc

/-- The mark/line search block of `recordSamples` (including its gating
condition and the two trailing `INCREASE_RANGE`s). -/
def markLineSearch (env : CalibrationEnv) (cfg : SampleConfiguration)
    (doRecord : Bool) (s : ModuleState) : ModuleState :=
  let n := env.lines.length
  if env.penaltyMarkWasSeen = true ∧ 2 ≤ n ∧ n ≤ 8 ∧
      (cfg.needToRecord s.samples SampleType.goalAreaDistance = true ∨
       cfg.needToRecord s.samples SampleType.groundLineDistance = true) then
    let goalAreaDisRange :=
      if cfg.camera = CameraSide.upper then s.goalAreaDisRangeUpper
      else s.goalAreaDisRangeLower
    let groundLineDisRange :=
      if cfg.camera = CameraSide.upper then s.groundLineDisRangeUpper
      else s.groundLineDisRangeLower
    let acc := (pairIndices n).foldl
      (processPair env cfg doRecord goalAreaDisRange groundLineDisRange)
      ⟨false, false, false, false, s.samples, s.allRequiredFeaturesVisible⟩
    let s := { s with samples := acc.samples,
                      allRequiredFeaturesVisible := acc.visible }
    if doRecord then
      let rGA := increaseRange env.discardsUntilIncrease env.increase
        acc.discardedGoalArea acc.foundGoalArea s.numOfDiscardedGoalAreaLines
        goalAreaDisRange
      let rGL := increaseRange env.discardsUntilIncrease env.increase
        acc.discardedGroundLine acc.foundGroundLine s.numOfDiscardedGroundLines
        groundLineDisRange
      if cfg.camera = CameraSide.upper then
        { s with numOfDiscardedGoalAreaLines := rGA.1,
                 goalAreaDisRangeUpper := rGA.2,
                 numOfDiscardedGroundLines := rGL.1,
                 groundLineDisRangeUpper := rGL.2 }
      else
        { s with numOfDiscardedGoalAreaLines := rGA.1,
                 goalAreaDisRangeLower := rGA.2,
                 numOfDiscardedGroundLines := rGL.1,
                 groundLineDisRangeLower := rGL.2 }
    else s
  else s

/-- Whether any sample type is still outstanding for the configuration. -/
def anySampleOutstanding (cfg : SampleConfiguration)
    (samples : SampleTable) : Bool :=
  cfg.needToRecord samples SampleType.cornerAngle ||
  cfg.needToRecord samples SampleType.parallelAngle ||
  cfg.needToRecord samples SampleType.parallelLinesDistance ||
  cfg.needToRecord samples SampleType.goalAreaDistance ||
  cfg.needToRecord samples SampleType.groundLineDistance

/-- The `doRecord` flag of the current sample-configuration request
(`theCalibrationRequest.sampleConfigurationRequest->doRecord`; the request is
present whenever `recordSamples` runs). -/
def doRecordOf (env : CalibrationEnv) : Bool :=
  match env.sampleConfigurationRequest with
  | some r => r.doRecord
  | none => false

/-- `AutomaticCameraCalibrator::recordSamples`: no-op when the active camera
does not match the configuration; otherwise clear the visibility flag, run
the corner/parallel triple search and the mark/line pair search, and—when no
sample type is outstanding—reset all discard counters and report visibility
unconditionally. -/
def recordSamples (env : CalibrationEnv) (s : ModuleState) : ModuleState :=
  match s.currentSampleConfiguration with
  | none => s
  | some cfg =>
    if env.camera ≠ cfg.camera then s
    else
      let s := { s with allRequiredFeaturesVisible := false }
      let s := cornerParallelSearch env cfg (doRecordOf env) s
      let s := markLineSearch env cfg (doRecordOf env) s
      if anySampleOutstanding cfg s.samples then s
      else
        { s with numOfDiscardedParallelLines := 0,
                 numOfDiscardedGoalAreaLines := 0,
                 numOfDiscardedGroundLines := 0,
                 allRequiredFeaturesVisible := true }

/-- `AutomaticCameraCalibrator::updateSampleConfiguration`: when a request
with a new monotonic index is observed, create the (immutable) sample
configuration, assign its base index into the global sample table and advance
`numOfSamples` by the number of requested types. -/
def updateSampleConfiguration (env : CalibrationEnv) (s : ModuleState) :
    ModuleState :=
  match env.sampleConfigurationRequest with
  | none => s
  | some r =>
    if (r.index : ℤ) = s.lastSampleConfigurationIndex then s
    else
      { s with
        currentSampleConfiguration := some
          { camera := r.camera, headPan := r.headPan, headTilt := r.headTilt,
            sampleTypes := r.sampleTypes, sampleIndexBase := s.numOfSamples },
        numOfSamples := s.numOfSamples +
          (sampleTypeList.filter (fun t => hasType r.sampleTypes t)).length,
        lastSampleConfigurationIndex := (r.index : ℤ) }

/-- The calibration-start phase of `update`: on a start request while idle,
reset the optimizer bookkeeping, size and clear the sample table, and enter
the `recordSamples` state. -/
def updateStart (env : CalibrationEnv) (s : ModuleState) : ModuleState :=
  if s.state = RunState.idle ∧ env.targetState = RunState.recordSamples then
    { s with optimizerActive := false, successiveConvergences := 0,
             optimizationSteps := 0,
             samples := List.replicate env.totalNumOfSamples none,
             nextCameraCalibration := env.theCameraCalibration,
             state := RunState.recordSamples, inStateSince := env.frameTime }
  else s

/-- The abort phase of `update`: return to idle on request. -/
def updateAbort (env : CalibrationEnv) (s : ModuleState) : ModuleState :=
  if env.targetState = RunState.idle ∧ s.state ≠ RunState.idle then
    { s with state := RunState.idle, inStateSince := env.frameTime }
  else s

/-- The sample-recording phase of `update`: run `recordSamples` while in the
`recordSamples` state with an active configuration, a request and an image. -/
def updateRecord (env : CalibrationEnv) (s : ModuleState) : ModuleState :=
  if s.state = RunState.recordSamples ∧ s.currentSampleConfiguration.isSome ∧
      env.sampleConfigurationRequest.isSome ∧ env.hasImage then
    recordSamples env s
  else s

/-- The optimize-transition phase of `update`: enter the `optimize` state on
request. -/
def updateOptTransition (env : CalibrationEnv) (s : ModuleState) :
    ModuleState :=
  if env.targetState = RunState.optimize ∧ s.state ≠ RunState.optimize then
    { s with state := RunState.optimize, inStateSince := env.frameTime }
  else s

/-- The optimization phase of `update`: run one `optimize` call while in the
`optimize` state. -/
def updateOpt (env : CalibrationEnv) (s : ModuleState) : ModuleState :=
  if s.state = RunState.optimize then optimize env s else s

/-- `AutomaticCameraCalibrator::update(CameraCalibration&)`: one processing
cycle.  Returns the new module state and the written calibration output
(`cameraCalibration = nextCameraCalibration` at the end of the cycle).  The
debug-response block is instrumentation and is not part of the embedding. -/
def update (env : CalibrationEnv) (s : ModuleState) :
    ModuleState × CameraCalibration :=
  let s1 := updateOpt env
    (updateOptTransition env
      (updateRecord env
        (updateAbort env
          (updateStart env
            (updateSampleConfiguration env
              { s with nextCameraCalibration := env.theCameraCalibration })))))
  (s1, s1.nextCameraCalibration)

/-- The proximity and ordering checks the corner/parallel search actually
performs on a triple `(i, j, k)` before it may mark visibility or record a
sample: at least one endpoint of line `i` within distance 100 of the
perceived field-coordinate line of `j` and likewise of `k` (the source takes
the minimum over the two endpoints), and neither `j`'s nor `k`'s field
midpoint strictly closer to the robot than `i`'s. -/
def TriplePasses (env : CalibrationEnv) (t : Nat × Nat × Nat) : Prop :=
  ∃ li lj lk, env.lines.get? t.1 = some li ∧ env.lines.get? t.2.1 = some lj ∧
    env.lines.get? t.2.2 = some lk ∧
    min (distToEdgeSq lj.line li.firstField) (distToEdgeSq lj.line li.lastField) ≤
      100 ^ 2 ∧
    min (distToEdgeSq lk.line li.firstField) (distToEdgeSq lk.line li.lastField) ≤
      100 ^ 2 ∧
    normSq (smul (1/2) (li.firstField + li.lastField)) ≤
      normSq (smul (1/2) (lj.firstField + lj.lastField)) ∧
    normSq (smul (1/2) (li.firstField + li.lastField)) ≤
      normSq (smul (1/2) (lk.firstField + lk.lastField))

/-- The proximity check as the claim formulates it: both endpoints of line
`i` within 100 image-distance units of both lines `j` and `k`. -/
def ClaimedTripleCheck (env : CalibrationEnv) (t : Nat × Nat × Nat) : Prop :=
  match env.lines.get? t.1, env.lines.get? t.2.1, env.lines.get? t.2.2 with
  | some li, some lj, some lk =>
    distToEdgeSq (imgLine lj) li.firstImg ≤ 100 ^ 2 ∧
    distToEdgeSq (imgLine lj) li.lastImg ≤ 100 ^ 2 ∧
    distToEdgeSq (imgLine lk) li.firstImg ≤ 100 ^ 2 ∧
    distToEdgeSq (imgLine lk) li.lastImg ≤ 100 ^ 2
  | _, _, _ => False

/-- A sample configuration requesting exactly the two types `A` and `C`, with
base index 0 (the fixture of the needToRecord/record/samplesExist round
trip). -/
def pairConfig (A C : SampleType) : SampleConfiguration :=
  ⟨CameraSide.lower, 0, 0, 2 ^ A.idx + 2 ^ C.idx, 0⟩

/-- An accumulator with a single nonzero cell, at angle bucket 5 and distance
bucket 3. -/
def houghSingle : ℤ → ℤ → ℤ := fun a d => if a = 5 ∧ d = 3 then 5 else 0

/-- An accumulator with two adjacent equal-valued cells, at angle bucket 5
and distance buckets 3 and 4. -/
def houghAdjacent : ℤ → ℤ → ℤ :=
  fun a d => if a = 5 ∧ (d = 3 ∨ d = 4) then 7 else 0

/-- A zero calibration, used by the concrete evaluation fixtures. -/
def baseCalibration : CameraCalibration := ⟨0, 0, 0, 0, 0, 0⟩

/-- A concrete cycle environment with empty percepts and benign oracles, the
base of the evaluation fixtures. -/
def baseEnv : CalibrationEnv where
  theCameraCalibration := baseCalibration
  frameTime := 0
  targetState := RunState.idle
  totalNumOfSamples := 0
  sampleConfigurationRequest := none
  hasImage := false
  camera := CameraSide.lower
  cameraWidth := 640
  lines := []
  penaltyMarkWasSeen := false
  penaltyMarkOnField := ⟨0, 0⟩
  fit := fun _ _ => none
  calcAngleDeg := fun _ _ _ _ => 0
  signedDistToLine := fun _ _ => 0
  distToLine := fun _ _ => 0
  iterate := fun p => (some 0, p)
  functorError := fun _ _ => 0
  numOfMeasurements := 0
  notValidError := 1000000
  terminationCriterion := 1
  minSuccessiveConvergences := 1000000
  rand := fun _ => 1/2
  discardsUntilIncrease := 3
  increase := 1

/-- A concrete idle module state, the base of the evaluation fixtures. -/
def baseState : ModuleState where
  state := RunState.idle
  inStateSince := 0
  samples := []
  numOfSamples := 0
  lastSampleConfigurationIndex := -1
  currentSampleConfiguration := none
  allRequiredFeaturesVisible := false
  parallelDisRangeLower := ⟨0, 1⟩
  parallelDisRangeUpper := ⟨0, 1⟩
  goalAreaDisRangeLower := ⟨0, 1⟩
  goalAreaDisRangeUpper := ⟨0, 1⟩
  groundLineDisRangeLower := ⟨0, 1⟩
  groundLineDisRangeUpper := ⟨0, 1⟩
  numOfDiscardedParallelLines := 0
  numOfDiscardedGoalAreaLines := 0
  numOfDiscardedGroundLines := 0
  optimizerActive := false
  optimizationParameters := zeroParameters
  successiveConvergences := 0
  optimizationSteps := 0
  lowestDelta := none
  lowestDeltaParameters := zeroParameters
  lowestError := 0
  lowestErrorParameters := zeroParameters
  nextCameraCalibration := baseCalibration

/-- An environment whose Gauss-Newton step is non-finite. -/
def envDiverge : CalibrationEnv := { baseEnv with iterate := fun p => (none, p) }

/-- An active optimizer state whose current first parameter is 10 degrees. -/
def stateActive10 : ModuleState :=
  { baseState with optimizerActive := true,
                   optimizationParameters := ⟨10, 0, 0, 0, 0, 0⟩ }

/-- An environment whose Gauss-Newton step returns delta 10. -/
def envDelta10 : CalibrationEnv :=
  { baseEnv with iterate := fun p => (some 10, p) }

/-- An active optimizer state that has already taken 499 steps. -/
def stateSteps499 : ModuleState :=
  { baseState with optimizerActive := true, optimizationSteps := 499 }

/-- An active optimizer state with no steps taken. -/
def stateActive0 : ModuleState := { baseState with optimizerActive := true }

/-- The short connecting line of the corner-search fixture: in the image a
short horizontal stub far from the other lines, on the field the segment from
(1000, 0) to (1600, 0). -/
def lineShort : LinePercept :=
  ⟨⟨0, 0⟩, ⟨10, 0⟩, ⟨1000, 0⟩, ⟨1600, 0⟩, ⟨⟨1000, 0⟩, ⟨600, 0⟩⟩⟩

/-- The first long orthogonal line of the corner-search fixture: in the image
a vertical stub at x = 500, on the field the segment x = 1000 from y = -200
to y = 2000. -/
def lineLongA : LinePercept :=
  ⟨⟨500, 0⟩, ⟨500, 10⟩, ⟨1000, -200⟩, ⟨1000, 2000⟩, ⟨⟨1000, -200⟩, ⟨0, 2200⟩⟩⟩

/-- The second long orthogonal line of the corner-search fixture: in the
image a vertical stub at x = 800, on the field the segment x = 1600 from
y = -200 to y = 2000. -/
def lineLongB : LinePercept :=
  ⟨⟨800, 0⟩, ⟨800, 10⟩, ⟨1600, -200⟩, ⟨1600, 2000⟩, ⟨⟨1600, -200⟩, ⟨0, 2200⟩⟩⟩

/-- A concrete angle oracle: 90 degrees for two image segments that are not
parallel, 0 degrees for parallel ones. -/
def rightAngleOracle : Vec2 → Vec2 → Vec2 → Vec2 → ℚ :=
  fun p1 p2 q1 q2 => if cross (p1 - p2) (q1 - q2) = 0 then 0 else 90

/-- The sample configuration of the corner-search fixture: lower camera,
requesting only `parallelAngle`, base index 0. -/
def cfgParallel : SampleConfiguration :=
  ⟨CameraSide.lower, 0, 0, 2 ^ SampleType.parallelAngle.idx, 0⟩

/-- The cycle environment of the corner-search fixture: the three lines
above, the right-angle oracle, recording not requested. -/
def envCorner : CalibrationEnv :=
  { baseEnv with lines := [lineShort, lineLongA, lineLongB],
                 calcAngleDeg := rightAngleOracle }

/-- The module state of the corner-search fixture: the `parallelAngle`
configuration active over a one-slot empty table. -/
def stateCorner : ModuleState :=
  { baseState with currentSampleConfiguration := some cfgParallel,
                   samples := [none] }

/-- A dummy line percept for the too-many-lines fixture. -/
def dummyLine : LinePercept :=
  ⟨⟨0, 0⟩, ⟨1, 0⟩, ⟨0, 0⟩, ⟨1, 0⟩, ⟨⟨0, 0⟩, ⟨1, 0⟩⟩⟩

/-- An environment with nine detected lines. -/
def envNineLines : CalibrationEnv :=
  { baseEnv with lines := List.replicate 9 dummyLine }

/-- A module state with the `parallelAngle` configuration active over a
one-slot empty table. -/
def stateNine : ModuleState :=
  { baseState with currentSampleConfiguration := some cfgParallel,
                   samples := [none] }

/-- A concrete fit-scan environment: both intersection distances positive and
above the minimum separation, projection successful. -/
def fitEnvW : FitScanEnv where
  sdStart := fun _ => 3
  sdEnd := fun _ => 5
  projectionOk := true
  minDisImage := 2
  fieldLinesWidth := 50

/-- A concrete two-maxima list for the fit-scan fixture. -/
def maximaW : List Maximum := [⟨10, 0, 5⟩, ⟨8, 0, 9⟩]

/-- The result of `fmod` by a positive modulus has magnitude strictly below the
modulus. -/
theorem abs_fmodQ_lt (x y : ℚ) (hy : 0 < y) : |fmodQ x y| < y := by
  have hy0 : y ≠ 0 := ne_of_gt hy
  have hxy : y * (x / y) = x := mul_div_cancel₀ x hy0
  unfold fmodQ ratTrunc
  split
  case isTrue h =>
    have h1 : ((⌊x / y⌋ : ℤ) : ℚ) ≤ x / y := Int.floor_le _
    have h2 : x / y < (⌊x / y⌋ : ℤ) + 1 := Int.lt_floor_add_one _
    rw [abs_lt]
    constructor <;> nlinarith
  case isFalse h =>
    have h1 : x / y ≤ ((⌈x / y⌉ : ℤ) : ℚ) := Int.le_ceil _
    have h2 : ((⌈x / y⌉ : ℤ) : ℚ) < x / y + 1 := Int.ceil_lt_add_one _
    rw [abs_lt]
    constructor <;> nlinarith

theorem mem_intRange {lo hi m : ℤ} : m ∈ intRange lo hi ↔ lo ≤ m ∧ m ≤ hi := by
  unfold intRange
  constructor
  · intro h
    obtain ⟨k, hk, hke⟩ := List.mem_map.mp h
    rw [List.mem_range] at hk
    rw [Int.ofNat_eq_natCast] at hke
    omega
  · intro h
    exact List.mem_map.mpr
      ⟨(m - lo).toNat, List.mem_range.mpr (by omega),
        by rw [Int.ofNat_eq_natCast]; omega⟩

theorem localMaximum_iff (houghSpace : ℤ → ℤ → ℤ)
    (maxDisIndex value angleIndex distanceIndex numOfAngles : ℤ) :
    localMaximum houghSpace maxDisIndex value angleIndex distanceIndex numOfAngles =
        true ↔
      NoGreaterNeighbour houghSpace maxDisIndex value angleIndex distanceIndex
        numOfAngles := by
  unfold localMaximum NoGreaterNeighbour
  simp only [List.all_eq_true]
  constructor
  · intro h i hi1 hi2 j hj1 hj2 hne
    have hj := h i (mem_intRange.mpr ⟨hi1, hi2⟩) j (mem_intRange.mpr ⟨hj1, hj2⟩)
    simp only [Bool.or_eq_true, Bool.and_eq_true, decide_eq_true_eq] at hj
    rcases hj with ⟨h1, h2⟩ | h2
    · exact absurd ⟨h1, h2⟩ hne
    · exact h2
  · intro h i hi j hj
    rw [mem_intRange] at hi hj
    simp only [Bool.or_eq_true, Bool.and_eq_true, decide_eq_true_eq]
    by_cases hc : (angleIndex + i + numOfAngles) % numOfAngles = angleIndex ∧
        j = distanceIndex
    · exact Or.inl hc
    · exact Or.inr (h i hi.1 hi.2 j hj.1 hj.2 hc)

/-- Membership characterisation of `determineLocalMaxima`: a cell is reported
exactly when its angle lies in the scanned sector, its distance lies in the
accumulator, its value is nonzero and no cell within ±1 angle bucket
(circularly) and ±1 distance bucket holds a strictly greater value. -/
theorem mem_determineLocalMaxima (houghSpace : ℤ → ℤ → ℤ)
    (minIndex maxIndex numOfAngles maxDisIndex : ℤ) (m : Maximum) :
    m ∈ determineLocalMaxima houghSpace minIndex maxIndex numOfAngles maxDisIndex ↔
      m.angleIndex ∈ scannedAngles minIndex maxIndex numOfAngles ∧
      0 ≤ m.distanceIndex ∧ m.distanceIndex ≤ maxDisIndex - 1 ∧
      m.maxAcc = houghSpace m.angleIndex m.distanceIndex ∧
      m.maxAcc ≠ 0 ∧
      NoGreaterNeighbour houghSpace maxDisIndex m.maxAcc m.angleIndex
        m.distanceIndex numOfAngles := by
  obtain ⟨v, a, d⟩ := m
  unfold determineLocalMaxima
  simp only [List.mem_flatMap, List.mem_filterMap]
  constructor
  · rintro ⟨a', ha, d', hd, hsome⟩
    rw [mem_intRange] at hd
    split at hsome
    case isTrue hvp =>
      cases hsome
      exact ⟨ha, hd.1, hd.2, rfl, hvp.1, (localMaximum_iff _ _ _ _ _ _).mp hvp.2⟩
    case isFalse => cases hsome
  · rintro ⟨ha, hd1, hd2, hv, hne, hng⟩
    subst hv
    refine ⟨a, ha, d, mem_intRange.mpr ⟨hd1, hd2⟩, ?_⟩
    rw [if_pos ⟨hne, (localMaximum_iff _ _ _ _ _ _).mpr hng⟩]

theorem sortedDescBy_insertDesc (m : Maximum) (l : List Maximum)
    (h : sortedDescBy l = true) : sortedDescBy (insertDesc m l) = true := by
  induction l with
  | nil => rfl
  | cons x xs ih =>
    unfold insertDesc
    split
    case isTrue hx =>
      unfold sortedDescBy
      rw [Bool.and_eq_true, decide_eq_true_eq]
      exact ⟨le_of_lt hx, h⟩
    case isFalse hx =>
      cases xs with
      | nil =>
        unfold insertDesc sortedDescBy
        rw [Bool.and_eq_true, decide_eq_true_eq]
        exact ⟨not_lt.mp hx, rfl⟩
      | cons y ys =>
        rw [sortedDescBy, Bool.and_eq_true, decide_eq_true_eq] at h
        have ih' := ih h.2
        unfold insertDesc at ih' ⊢
        split
        case isTrue hy =>
          rw [sortedDescBy, Bool.and_eq_true, decide_eq_true_eq]
          refine ⟨not_lt.mp hx, ?_⟩
          rw [if_pos hy] at ih'
          exact ih'
        case isFalse hy =>
          rw [sortedDescBy, Bool.and_eq_true, decide_eq_true_eq]
          refine ⟨h.1, ?_⟩
          rw [if_neg hy] at ih'
          exact ih'

theorem sortedDescBy_sortDesc (l : List Maximum) :
    sortedDescBy (sortDesc l) = true := by
  induction l with
  | nil => rfl
  | cons x xs ih => exact sortedDescBy_insertDesc x (sortDesc xs) ih

theorem length_insertDesc (m : Maximum) (l : List Maximum) :
    (insertDesc m l).length = l.length + 1 := by
  induction l with
  | nil => rfl
  | cons x xs ih =>
    unfold insertDesc
    split
    · rfl
    · rw [List.length_cons, ih, List.length_cons]

theorem length_sortDesc (l : List Maximum) :
    (sortDesc l).length = l.length := by
  induction l with
  | nil => rfl
  | cons x xs ih =>
    rw [sortDesc, length_insertDesc, ih, List.length_cons]

theorem scanCandidates_eq_none (env : FitScanEnv) (l : List Maximum) :
    scanCandidates env l = none ↔
      (∀ m ∈ l, validCandidate env m = false) ∨ env.projectionOk = false := by
  induction l with
  | nil => simp [scanCandidates]
  | cons x xs ih =>
    unfold scanCandidates
    split
    case isTrue hx =>
      constructor
      · intro h
        split at h
        case isTrue hp => cases h
        case isFalse hp => exact Or.inr (Bool.eq_false_iff.mpr hp)
      · intro h
        rcases h with h | h
        · exact absurd hx
            (by rw [h x (List.mem_cons_self x xs)]; exact Bool.false_ne_true)
        · rw [h]
          rfl
    case isFalse hx =>
      rw [ih]
      constructor
      · intro h
        rcases h with h | h
        · refine Or.inl (fun m hm => ?_)
          rcases List.mem_cons.mp hm with rfl | hm'
          · exact Bool.eq_false_iff.mpr hx
          · exact h m hm'
        · exact Or.inr h
      · intro h
        rcases h with h | h
        · exact Or.inl (fun m hm => h m (List.mem_cons_of_mem _ hm))
        · exact Or.inr h

theorem scanCandidates_eq_some (env : FitScanEnv) (l : List Maximum) (o : ℚ) :
    scanCandidates env l = some o ↔
      env.projectionOk = true ∧
        ∃ m, l.find? (validCandidate env) = some m ∧ o = candidateOffset env m := by
  induction l with
  | nil => simp [scanCandidates]
  | cons x xs ih =>
    unfold scanCandidates
    split
    case isTrue hx =>
      rw [List.find?_cons_of_pos _ hx]
      constructor
      · intro h
        split at h
        case isTrue hp =>
          cases h
          exact ⟨hp, x, rfl, rfl⟩
        case isFalse hp => cases h
      · rintro ⟨hp, m, hm, rfl⟩
        cases hm
        rw [if_pos hp]
    case isFalse hx =>
      rw [List.find?_cons_of_neg _ hx]
      exact ih

/-- C3 (counterexample): with threshold 3, a cycle with an acceptance and no
discard while the counter stands at 2 leaves the counter at 2; the claim's
assertion that an acceptance resets the discard counter to 0 fails here. -/
theorem increaseRange_acceptance_counterexample :
    ¬((increaseRange 3 1 false true 2 ⟨0, 1⟩).1 = 0) := by decide

/-- C3 (amended): the discard counter is incremented exactly in cycles with a
discard and no acceptance; when it reaches the configured threshold the range
widens by the increment on both bounds and the counter resets to 0; a cycle
with an acceptance (or without a discard) leaves the counter unchanged rather
than resetting it. -/
theorem increaseRange_spec (thresh : Nat) (inc : ℚ) (discarded found : Bool)
    (n : Nat) (r : Rangef) :
    (discarded = true → found = false → n + 1 < thresh →
      increaseRange thresh inc discarded found n r = (n + 1, r)) ∧
    (discarded = true → found = false → thresh ≤ n + 1 →
      increaseRange thresh inc discarded found n r =
        (0, ⟨r.min - inc, r.max + inc⟩)) ∧
    ((discarded = false ∨ found = true) → n < thresh →
      increaseRange thresh inc discarded found n r = (n, r)) := by
  refine ⟨?_, ?_, ?_⟩
  · intro hd hf hlt
    subst hd; subst hf
    unfold increaseRange
    simp only [Bool.not_false, Bool.and_self, if_true, ite_true]
    rw [if_neg (by omega)]
  · intro hd hf hle
    subst hd; subst hf
    unfold increaseRange
    simp only [Bool.not_false, Bool.and_self, if_true, ite_true]
    rw [if_pos (by omega)]
  · intro hd hlt
    unfold increaseRange
    have hcond : (discarded && !found) = false := by
      rcases hd with hd | hd
      · rw [hd]; rfl
      · rw [hd]; simp
    simp only [hcond, Bool.false_eq_true, if_false, ite_false]
    rw [if_neg (by omega)]

/-- C3 (witness): three discards with threshold 3 widen the range by the
increment on both bounds and reset the counter. -/
theorem increaseRange_spec_witness :
    increaseRange 3 1 true false 2 ⟨0, 1⟩ = (0, ⟨0 - 1, 1 + 1⟩) :=
  (increaseRange_spec 3 1 true false 2 ⟨0, 1⟩).2.1 rfl rfl (by decide)

/-- C7: for a configuration requesting exactly the types A and C over an
otherwise empty two-slot table, `needToRecord A` holds and `needToRecord B`
fails for unrequested B; after `record A`, `needToRecord A` fails while
`samplesExist` stays false; after additionally recording C, `samplesExist`
holds. -/
theorem sampleConfiguration_roundTrip (A C : SampleType) (h : A ≠ C) :
    (pairConfig A C).needToRecord [none, none] A = true ∧
    (∀ B : SampleType, B ≠ A → B ≠ C →
      (pairConfig A C).needToRecord [none, none] B = false) ∧
    (pairConfig A C).needToRecord
      ((pairConfig A C).record [none, none] A ()) A = false ∧
    (pairConfig A C).samplesExist
      ((pairConfig A C).record [none, none] A ()) = false ∧
    (pairConfig A C).samplesExist
      ((pairConfig A C).record
        ((pairConfig A C).record [none, none] A ()) C ()) = true := by
  revert h
  revert C
  revert A
  decide

/-- C7 (witness): the round trip evaluated at A = cornerAngle and
C = parallelLinesDistance. -/
theorem sampleConfiguration_roundTrip_witness :
    (pairConfig SampleType.cornerAngle SampleType.parallelLinesDistance).needToRecord
        [none, none] SampleType.cornerAngle = true ∧
    (∀ B : SampleType, B ≠ SampleType.cornerAngle →
      B ≠ SampleType.parallelLinesDistance →
      (pairConfig SampleType.cornerAngle
        SampleType.parallelLinesDistance).needToRecord [none, none] B = false) ∧
    (pairConfig SampleType.cornerAngle SampleType.parallelLinesDistance).needToRecord
      ((pairConfig SampleType.cornerAngle SampleType.parallelLinesDistance).record
        [none, none] SampleType.cornerAngle ()) SampleType.cornerAngle = false ∧
    (pairConfig SampleType.cornerAngle
      SampleType.parallelLinesDistance).samplesExist
      ((pairConfig SampleType.cornerAngle SampleType.parallelLinesDistance).record
        [none, none] SampleType.cornerAngle ()) = false ∧
    (pairConfig SampleType.cornerAngle
      SampleType.parallelLinesDistance).samplesExist
      ((pairConfig SampleType.cornerAngle SampleType.parallelLinesDistance).record
        ((pairConfig SampleType.cornerAngle
          SampleType.parallelLinesDistance).record
          [none, none] SampleType.cornerAngle ())
        SampleType.parallelLinesDistance ()) = true :=
  sampleConfiguration_roundTrip SampleType.cornerAngle
    SampleType.parallelLinesDistance (by decide)

/-- C4 (counterexample): for an accumulator holding two adjacent equal-valued
nonzero cells, the extraction reports both of them, not at most one. -/
theorem determineLocalMaxima_adjacent_counterexample :
    ¬((determineLocalMaxima houghAdjacent 4 7 128 8).length ≤ 1) := by decide

/-- C4 (amended): a cell is reported as a local maximum exactly when it lies
in the scanned angle sector and the accumulator, is nonzero, and no cell
within ±1 angle bucket (circularly) and ±1 distance bucket holds a strictly
greater value; an accumulator with a single nonzero cell in the scanned
sector reports exactly that cell, and one with two adjacent equal-valued
cells reports both. -/
theorem determineLocalMaxima_spec :
    (∀ (houghSpace : ℤ → ℤ → ℤ)
        (minIndex maxIndex numOfAngles maxDisIndex : ℤ) (m : Maximum),
      m ∈ determineLocalMaxima houghSpace minIndex maxIndex numOfAngles
          maxDisIndex ↔
        m.angleIndex ∈ scannedAngles minIndex maxIndex numOfAngles ∧
        0 ≤ m.distanceIndex ∧ m.distanceIndex ≤ maxDisIndex - 1 ∧
        m.maxAcc = houghSpace m.angleIndex m.distanceIndex ∧ m.maxAcc ≠ 0 ∧
        NoGreaterNeighbour houghSpace maxDisIndex m.maxAcc m.angleIndex
          m.distanceIndex numOfAngles) ∧
    determineLocalMaxima houghSingle 4 7 128 8 = [⟨5, 5, 3⟩] ∧
    determineLocalMaxima houghAdjacent 4 7 128 8 = [⟨7, 5, 3⟩, ⟨7, 5, 4⟩] :=
  ⟨mem_determineLocalMaxima, by decide, by decide⟩

/-- C4 (witness): the single-cell accumulator's unique cell is reported. -/
theorem determineLocalMaxima_spec_witness :
    (⟨5, 5, 3⟩ : Maximum) ∈ determineLocalMaxima houghSingle 4 7 128 8 := by
  rw [determineLocalMaxima_spec.2.1]
  exact List.mem_singleton.mpr rfl

/-- C6: the line fitter produces no corrected line exactly when fewer than
two local maxima exist, or no non-primary maximum is a valid opposite-edge
candidate (both intersection points on one side of the primary line, each at
least the minimum separation away), or the unprojection of the refined
endpoints fails; on success the width offset is `candidateOffset` — plus or
minus half the field-line width, positive exactly when the first accepted
candidate in descending accumulator order lies on the positive side — and no
later candidate is considered. -/
theorem fitLineOffset_spec (env : FitScanEnv) (L : List Maximum) :
    (fitLineOffset env L = none ↔
      L.length ≤ 1 ∨ (∀ m ∈ (sortDesc L).tail, validCandidate env m = false) ∨
        env.projectionOk = false) ∧
    (∀ o, fitLineOffset env L = some o →
      env.projectionOk = true ∧
      ∃ m, (sortDesc L).tail.find? (validCandidate env) = some m ∧
        o = candidateOffset env m) ∧
    sortedDescBy (sortDesc L) = true := by
  refine ⟨?_, ?_, sortedDescBy_sortDesc L⟩
  · unfold fitLineOffset
    split
    case isTrue h =>
      rw [scanCandidates_eq_none]
      constructor
      · intro hc
        rcases hc with hc | hc
        · exact Or.inr (Or.inl hc)
        · exact Or.inr (Or.inr hc)
      · intro hc
        rcases hc with hc | hc | hc
        · omega
        · exact Or.inl hc
        · exact Or.inr hc
    case isFalse h =>
      constructor
      · intro _
        exact Or.inl (by omega)
      · intro _
        rfl
  · intro o ho
    unfold fitLineOffset at ho
    split at ho
    case isTrue h => exact (scanCandidates_eq_some env _ o).mp ho
    case isFalse h => cases ho

/-- C6 (witness): on the concrete fit fixture the scan succeeds with offset
25 = half the fixture's field-line width, from the single valid candidate. -/
theorem fitLineOffset_spec_witness :
    FitScanEnv.projectionOk fitEnvW = true ∧
    ∃ m, (sortDesc maximaW).tail.find? (validCandidate fitEnvW) = some m ∧
      (25 : ℚ) = candidateOffset fitEnvW m :=
  (fitLineOffset_spec fitEnvW maximaW).2.1 25
    (by norm_num [fitLineOffset, maximaW, fitEnvW, sortDesc, insertDesc,
      scanCandidates, validCandidate, candidateOffset])

theorem optimize_active (env : CalibrationEnv) (s : ModuleState)
    (hact : s.optimizerActive = true) : optimize env s = optimizeStep env s := by
  unfold optimize
  rw [hact]
  rfl

theorem optimizeStep_none (env : CalibrationEnv) (s : ModuleState)
    (p' : Parameters) (hh : env.iterate s.optimizationParameters = (none, p')) :
    optimizeStep env s =
      resetOptimization env false { s with optimizationParameters := p' } := by
  unfold optimizeStep
  rw [hh]

theorem optimizeStep_some_invalid (env : CalibrationEnv) (s : ModuleState)
    (delta : ℚ) (p' : Parameters)
    (hh : env.iterate s.optimizationParameters = (some delta, p'))
    (hany : (List.range env.numOfMeasurements).any
      (fun i => decide (env.notValidError ≤ env.functorError p' i)) = true) :
    optimizeStep env s =
      resetOptimization env false { s with optimizationParameters := p' } := by
  unfold optimizeStep
  rw [hh]
  simp only [hany, if_true, ite_true]

theorem optimizeStep_some_valid (env : CalibrationEnv) (s : ModuleState)
    (delta : ℚ) (p' : Parameters)
    (hh : env.iterate s.optimizationParameters = (some delta, p'))
    (hany : (List.range env.numOfMeasurements).any
      (fun i => decide (env.notValidError ≤ env.functorError p' i)) = false) :
    optimizeStep env s =
      optimizeAdvance env delta { s with optimizationParameters := p' } := by
  unfold optimizeStep
  rw [hh]
  simp only [hany, Bool.false_eq_true, if_false, ite_false]

theorem resetOptimization_false_fields (env : CalibrationEnv)
    (s : ModuleState) :
    (resetOptimization env false s).optimizerActive = false ∧
    (resetOptimization env false s).lowestDelta = none ∧
    (resetOptimization env false s).optimizationSteps = 0 ∧
    (resetOptimization env false s).optimizationParameters =
      perturbedParameters env.rand ∧
    (resetOptimization env false s).nextCameraCalibration =
      unpack (perturbedParameters env.rand) ∧
    (resetOptimization env false s).state = s.state :=
  ⟨rfl, rfl, rfl, rfl, rfl, rfl⟩

theorem abs_perturbed_le (rand : Fin 6 → ℚ)
    (h : ∀ i, 0 ≤ rand i ∧ rand i ≤ 1) :
    ∀ c ∈ paramsList (perturbedParameters rand), |c| ≤ 1/2 := by
  intro c hc
  simp only [paramsList, perturbedParameters, List.mem_cons,
    List.not_mem_nil, or_false] at hc
  rcases hc with h0 | h0 | h0 | h0 | h0 | h0 <;>
    (subst h0; rw [abs_le]; constructor)
  · linarith [(h 0).1, (h 0).2]
  · linarith [(h 0).1, (h 0).2]
  · linarith [(h 1).1, (h 1).2]
  · linarith [(h 1).1, (h 1).2]
  · linarith [(h 2).1, (h 2).2]
  · linarith [(h 2).1, (h 2).2]
  · linarith [(h 3).1, (h 3).2]
  · linarith [(h 3).1, (h 3).2]
  · linarith [(h 4).1, (h 4).2]
  · linarith [(h 4).1, (h 4).2]
  · linarith [(h 5).1, (h 5).2]
  · linarith [(h 5).1, (h 5).2]

theorem abs_calibList_unpack (p : Parameters) :
    ∀ c ∈ calibList (unpack p), |c| < 360 := by
  intro c hc
  simp only [calibList, unpack, List.mem_cons, List.not_mem_nil, or_false] at hc
  rcases hc with h | h | h | h | h | h <;>
    (subst h; exact abs_fmodQ_lt _ _ (by norm_num))

theorem optimizeAdvance_successiveConvergences (env : CalibrationEnv)
    (delta : ℚ) (s : ModuleState) :
    (optimizeAdvance env delta s).successiveConvergences =
      if |delta| < env.terminationCriterion *
          ((max 1 ((s.optimizationSteps + 1) / 500 * 50) : ℕ) : ℚ)
      then s.successiveConvergences + 1 else 0 := by
  simp only [optimizeAdvance, updateLowestError, resetOptimization,
    apply_ite ModuleState.successiveConvergences,
    apply_ite ModuleState.optimizationSteps, ite_self, if_true, ite_true]

theorem optimizeFinalWrite_output (env : CalibrationEnv) (s4 : ModuleState) :
    ∃ p : Parameters,
      (p = (if env.minSuccessiveConvergences ≤ s4.successiveConvergences then
              resetOptimization env true
                { s4 with
                  nextCameraCalibration := unpack s4.lowestErrorParameters }
            else
              { s4 with
                nextCameraCalibration :=
                  unpack s4.optimizationParameters }).optimizationParameters ∨
       p = (if env.minSuccessiveConvergences ≤ s4.successiveConvergences then
              resetOptimization env true
                { s4 with
                  nextCameraCalibration := unpack s4.lowestErrorParameters }
            else
              { s4 with
                nextCameraCalibration :=
                  unpack s4.optimizationParameters }).lowestErrorParameters) ∧
      (if env.minSuccessiveConvergences ≤ s4.successiveConvergences then
          resetOptimization env true
            { s4 with
              nextCameraCalibration := unpack s4.lowestErrorParameters }
        else
          { s4 with
            nextCameraCalibration :=
              unpack s4.optimizationParameters }).nextCameraCalibration =
        unpack p := by
  split
  · exact ⟨_, Or.inr rfl, rfl⟩
  · exact ⟨_, Or.inl rfl, rfl⟩

theorem optimizeAdvance_output (env : CalibrationEnv) (delta : ℚ)
    (s : ModuleState) :
    ∃ p : Parameters,
      (p = (optimizeAdvance env delta s).optimizationParameters ∨
       p = (optimizeAdvance env delta s).lowestErrorParameters) ∧
      (optimizeAdvance env delta s).nextCameraCalibration = unpack p := by
  unfold optimizeAdvance
  exact optimizeFinalWrite_output env _

/-- C1 (amended): whenever the optimizer is active and the step diverges
(non-finite delta, or some sample error at or above the sentinel), the
optimizer resets to the uninitialized state, replaces the parameter vector
with fresh independent uniform random values in [-0.5°, +0.5°] per parameter
(a perturbation of the zero vector, not of the previous parameters), writes
these to the calibration output, and discards the best-tracked
(lowest-delta) state. -/
theorem optimize_divergence_restart (env : CalibrationEnv) (s : ModuleState)
    (hact : s.optimizerActive = true)
    (hdiv : (env.iterate s.optimizationParameters).1 = none ∨
      ∃ i, i < env.numOfMeasurements ∧
        env.notValidError ≤
          env.functorError (env.iterate s.optimizationParameters).2 i)
    (hrand : ∀ i, 0 ≤ env.rand i ∧ env.rand i ≤ 1) :
    (optimize env s).optimizerActive = false ∧
    (optimize env s).lowestDelta = none ∧
    (optimize env s).optimizationSteps = 0 ∧
    (optimize env s).optimizationParameters = perturbedParameters env.rand ∧
    (∀ c ∈ paramsList (optimize env s).optimizationParameters, |c| ≤ 1/2) ∧
    (optimize env s).nextCameraCalibration =
      unpack (perturbedParameters env.rand) ∧
    (optimize env s).state = s.state := by
  rcases hh : env.iterate s.optimizationParameters with ⟨d, p'⟩
  rw [hh] at hdiv
  have hred : optimize env s =
      resetOptimization env false { s with optimizationParameters := p' } := by
    rw [optimize_active env s hact]
    cases d with
    | none => exact optimizeStep_none env s p' hh
    | some delta =>
      rcases hdiv with hd | ⟨i, hi, he⟩
      · simp at hd
      · refine optimizeStep_some_invalid env s delta p' hh ?_
        exact List.any_eq_true.mpr
          ⟨i, List.mem_range.mpr hi, decide_eq_true he⟩
  rw [hred]
  obtain ⟨h1, h2, h3, h4, h5, h6⟩ := resetOptimization_false_fields env
    { s with optimizationParameters := p' }
  refine ⟨h1, h2, h3, h4, ?_, h5, h6⟩
  rw [h4]
  exact abs_perturbed_le env.rand hrand

/-- C1 (witness): the divergence restart evaluated on the concrete fixture
with a non-finite step. -/
theorem optimize_divergence_restart_witness :
    (optimize envDiverge stateActive10).optimizerActive = false ∧
    (optimize envDiverge stateActive10).lowestDelta = none ∧
    (optimize envDiverge stateActive10).optimizationSteps = 0 ∧
    (optimize envDiverge stateActive10).optimizationParameters =
      perturbedParameters envDiverge.rand ∧
    (∀ c ∈ paramsList (optimize envDiverge stateActive10).optimizationParameters,
      |c| ≤ 1/2) ∧
    (optimize envDiverge stateActive10).nextCameraCalibration =
      unpack (perturbedParameters envDiverge.rand) ∧
    (optimize envDiverge stateActive10).state = stateActive10.state :=
  optimize_divergence_restart envDiverge stateActive10 rfl (Or.inl rfl)
    (fun i => by norm_num [envDiverge, baseEnv])

/-- C1 (counterexample): on the divergence fixture whose first parameter is
10 degrees, the restarted parameter vector is not any perturbation of the
previous parameter vector by at most 0.5 degrees per component — the source
overwrites the parameters with fresh values instead of perturbing them. -/
theorem optimize_divergence_not_perturbLastGood :
    ¬ ∃ q : Parameters, (∀ c ∈ paramsList q, |c| ≤ 1/2) ∧
        (optimize envDiverge stateActive10).optimizationParameters =
          addParams stateActive10.optimizationParameters q := by
  rintro ⟨q, hq, he⟩
  have hP : (optimize envDiverge stateActive10).optimizationParameters =
      perturbedParameters envDiverge.rand := by
    rw [optimize_active envDiverge stateActive10 rfl,
      optimizeStep_none envDiverge stateActive10
        stateActive10.optimizationParameters rfl]
    exact (resetOptimization_false_fields envDiverge _).2.2.2.1
  rw [hP] at he
  have h0 := congrArg Parameters.lowerCameraRollCorrection he
  simp only [perturbedParameters, addParams, stateActive10, baseState,
    envDiverge, baseEnv] at h0
  have hm : q.lowerCameraRollCorrection ∈ paramsList q := by
    simp [paramsList]
  have hb := hq _ hm
  rw [abs_le] at hb
  obtain ⟨hb1, hb2⟩ := hb
  linarith

/-- C2 (amended): for every non-divergent optimization step, the step counts
as a successive convergence exactly when the absolute step delta is below the
base termination criterion times the plateau multiplier
`max 1 (optimizationSteps / 500 * 50)` — the multiplier grows by 50 (not 1)
for every 500 steps taken, with minimum 1 — and a non-qualifying step resets
the successive-convergence counter to 0. -/
theorem optimize_convergence_counter (env : CalibrationEnv) (s : ModuleState)
    (d : ℚ) (p' : Parameters) (hact : s.optimizerActive = true)
    (hh : env.iterate s.optimizationParameters = (some d, p'))
    (hvalid : ∀ i, i < env.numOfMeasurements →
      env.functorError p' i < env.notValidError) :
    (optimize env s).successiveConvergences =
      if |d| < env.terminationCriterion *
          ((max 1 ((s.optimizationSteps + 1) / 500 * 50) : ℕ) : ℚ)
      then s.successiveConvergences + 1 else 0 := by
  have hany : (List.range env.numOfMeasurements).any
      (fun i => decide (env.notValidError ≤ env.functorError p' i)) = false := by
    rw [List.any_eq_false]
    intro i hi
    simp only [decide_eq_true_eq]
    exact not_le.mpr (hvalid i (List.mem_range.mp hi))
  rw [optimize_active env s hact, optimizeStep_some_valid env s d p' hh hany,
    optimizeAdvance_successiveConvergences]

/-- C2 (witness): a fresh active optimizer taking a zero-delta step counts
one successive convergence. -/
theorem optimize_convergence_counter_witness :
    (optimize baseEnv stateActive0).successiveConvergences = 1 := by
  rw [optimize_convergence_counter baseEnv stateActive0 0 zeroParameters rfl
    rfl (fun i hi => absurd hi (Nat.not_lt_zero i))]
  norm_num [baseEnv, stateActive0, baseState]

/-- C2 (counterexample): at step 500 with delta 10 and termination criterion
1, the source counts the step as a successive convergence (the counter goes
from 0 to 1) although 10 is not below the claim's threshold
`criterion * max 1 (steps / 500)`, i.e. the multiplier grows by 50 per 500
steps, not by 1. -/
theorem optimize_plateau_counterexample :
    (optimize envDelta10 stateSteps499).successiveConvergences = 1 ∧
    ¬(|(10 : ℚ)| < envDelta10.terminationCriterion *
        ((max 1 ((stateSteps499.optimizationSteps + 1) / 500) : ℕ) : ℚ)) := by
  constructor
  · rw [optimize_active envDelta10 stateSteps499 rfl,
      optimizeStep_some_valid envDelta10 stateSteps499 10
        stateSteps499.optimizationParameters rfl rfl,
      optimizeAdvance_successiveConvergences]
    norm_num [stateSteps499, baseState, envDelta10, baseEnv]
  · norm_num [stateSteps499, baseState, envDelta10, baseEnv]

/-- C8: every calibration written by an optimization step is the `unpack` of
the raw parameter vector being written (the current parameters, the
lowest-error parameters, or the restart parameters), so each of its six angle
components is `fmod` of the raw parameter by 360 degrees and has magnitude
strictly below a full turn. -/
theorem optimize_output_normalized (env : CalibrationEnv) (s : ModuleState)
    (hact : s.optimizerActive = true) :
    (∃ p : Parameters,
      (p = (optimize env s).optimizationParameters ∨
       p = (optimize env s).lowestErrorParameters) ∧
      (optimize env s).nextCameraCalibration = unpack p) ∧
    ∀ c ∈ calibList (optimize env s).nextCameraCalibration, |c| < 360 := by
  have hmain : ∃ p : Parameters,
      (p = (optimize env s).optimizationParameters ∨
       p = (optimize env s).lowestErrorParameters) ∧
      (optimize env s).nextCameraCalibration = unpack p := by
    rw [optimize_active env s hact]
    rcases hh : env.iterate s.optimizationParameters with ⟨d, p'⟩
    cases d with
    | none =>
      rw [optimizeStep_none env s p' hh]
      refine ⟨perturbedParameters env.rand, Or.inl ?_, ?_⟩
      · exact (resetOptimization_false_fields env _).2.2.2.1.symm
      · exact (resetOptimization_false_fields env _).2.2.2.2.1
    | some delta =>
      cases hany : (List.range env.numOfMeasurements).any
          (fun i => decide (env.notValidError ≤ env.functorError p' i)) with
      | true =>
        rw [optimizeStep_some_invalid env s delta p' hh hany]
        refine ⟨perturbedParameters env.rand, Or.inl ?_, ?_⟩
        · exact (resetOptimization_false_fields env _).2.2.2.1.symm
        · exact (resetOptimization_false_fields env _).2.2.2.2.1
      | false =>
        rw [optimizeStep_some_valid env s delta p' hh hany]
        exact optimizeAdvance_output env delta _
  refine ⟨hmain, ?_⟩
  obtain ⟨p, _, hp⟩ := hmain
  rw [hp]
  exact abs_calibList_unpack p

/-- C8 (witness): the normalization property evaluated on a fresh active
optimizer fixture. -/
theorem optimize_output_normalized_witness :
    (∃ p : Parameters,
      (p = (optimize baseEnv stateActive0).optimizationParameters ∨
       p = (optimize baseEnv stateActive0).lowestErrorParameters) ∧
      (optimize baseEnv stateActive0).nextCameraCalibration = unpack p) ∧
    ∀ c ∈ calibList (optimize baseEnv stateActive0).nextCameraCalibration,
      |c| < 360 :=
  optimize_output_normalized baseEnv stateActive0 rfl

theorem updateSampleConfiguration_preserves (env : CalibrationEnv)
    (s : ModuleState) :
    (updateSampleConfiguration env s).state = s.state ∧
    (updateSampleConfiguration env s).nextCameraCalibration =
      s.nextCameraCalibration := by
  unfold updateSampleConfiguration
  cases env.sampleConfigurationRequest with
  | none => exact ⟨rfl, rfl⟩
  | some r =>
    simp only []
    by_cases h : (r.index : ℤ) = s.lastSampleConfigurationIndex
    · rw [if_pos h]
      exact ⟨rfl, rfl⟩
    · rw [if_neg h]
      exact ⟨rfl, rfl⟩

theorem cornerParallelSearch_preserves (env : CalibrationEnv)
    (cfg : SampleConfiguration) (doRecord : Bool) (s : ModuleState) :
    (cornerParallelSearch env cfg doRecord s).state = s.state ∧
    (cornerParallelSearch env cfg doRecord s).nextCameraCalibration =
      s.nextCameraCalibration := by
  simp only [cornerParallelSearch]
  split
  · split
    · split
      · exact ⟨rfl, rfl⟩
      · exact ⟨rfl, rfl⟩
    · exact ⟨rfl, rfl⟩
  · exact ⟨rfl, rfl⟩

theorem markLineSearch_preserves (env : CalibrationEnv)
    (cfg : SampleConfiguration) (doRecord : Bool) (s : ModuleState) :
    (markLineSearch env cfg doRecord s).state = s.state ∧
    (markLineSearch env cfg doRecord s).nextCameraCalibration =
      s.nextCameraCalibration := by
  simp only [markLineSearch]
  split
  · split
    · split
      · exact ⟨rfl, rfl⟩
      · exact ⟨rfl, rfl⟩
    · exact ⟨rfl, rfl⟩
  · exact ⟨rfl, rfl⟩

theorem recordSamples_preserves (env : CalibrationEnv) (s : ModuleState) :
    (recordSamples env s).state = s.state ∧
    (recordSamples env s).nextCameraCalibration = s.nextCameraCalibration := by
  unfold recordSamples
  split
  · exact ⟨rfl, rfl⟩
  case _ x cfg heq =>
    split
    · exact ⟨rfl, rfl⟩
    · obtain ⟨hc1, hc2⟩ := cornerParallelSearch_preserves env cfg (doRecordOf env)
        { s with allRequiredFeaturesVisible := false }
      obtain ⟨hm1, hm2⟩ := markLineSearch_preserves env cfg (doRecordOf env)
        (cornerParallelSearch env cfg (doRecordOf env)
          { s with allRequiredFeaturesVisible := false })
      refine ⟨?_, ?_⟩
      · simp only [apply_ite ModuleState.state, ite_self]
        exact hm1.trans hc1
      · simp only [apply_ite ModuleState.nextCameraCalibration, ite_self]
        exact hm2.trans hc2

theorem cornerParallelSearch_manyLines (env : CalibrationEnv)
    (cfg : SampleConfiguration) (doRecord : Bool) (s : ModuleState)
    (hn : 8 < env.lines.length) :
    cornerParallelSearch env cfg doRecord s = s := by
  unfold cornerParallelSearch
  rw [if_neg]
  rintro ⟨-, h8, -⟩
  omega

theorem markLineSearch_manyLines (env : CalibrationEnv)
    (cfg : SampleConfiguration) (doRecord : Bool) (s : ModuleState)
    (hn : 8 < env.lines.length) :
    markLineSearch env cfg doRecord s = s := by
  unfold markLineSearch
  rw [if_neg]
  rintro ⟨-, -, h8, -⟩
  omega

/-- C10: the corner/parallel triple search runs only for 3 to 8 detected
lines and the mark/line pair search only for 2 to 8 detected lines with a
mark seen, so in every recording cycle with more than 8 detected lines (and
the matching camera active) the sample table is unchanged and the required
features are reported visible exactly when no sample type is outstanding for
the active configuration. -/
theorem recordSamples_manyLines (env : CalibrationEnv) (s : ModuleState)
    (cfg : SampleConfiguration)
    (hcfg : s.currentSampleConfiguration = some cfg)
    (hcam : env.camera = cfg.camera) (hn : 8 < env.lines.length) :
    (recordSamples env s).samples = s.samples ∧
    (recordSamples env s).allRequiredFeaturesVisible =
      !(anySampleOutstanding cfg s.samples) := by
  unfold recordSamples
  rw [hcfg]
  simp only []
  rw [if_neg (not_not_intro hcam)]
  rw [cornerParallelSearch_manyLines env cfg (doRecordOf env) _ hn,
    markLineSearch_manyLines env cfg (doRecordOf env) _ hn]
  cases houts : anySampleOutstanding cfg s.samples with
  | true =>
    rw [if_pos rfl]
    exact ⟨rfl, rfl⟩
  | false =>
    rw [if_neg Bool.false_ne_true]
    exact ⟨rfl, rfl⟩

/-- C10 (witness): a cycle with nine (identical) detected lines, the
matching camera and one outstanding sample type leaves the table unchanged
and does not mark the required features visible. -/
theorem recordSamples_manyLines_witness :
    (recordSamples envNineLines stateNine).samples = stateNine.samples ∧
    (recordSamples envNineLines stateNine).allRequiredFeaturesVisible =
      !(anySampleOutstanding cfgParallel stateNine.samples) :=
  recordSamples_manyLines envNineLines stateNine cfgParallel rfl rfl
    (by simp [envNineLines, baseEnv])

theorem updateStart_skip (env : CalibrationEnv) (s : ModuleState)
    (h : env.targetState ≠ RunState.recordSamples) : updateStart env s = s := by
  unfold updateStart
  rw [if_neg (fun hc => h hc.2)]

theorem updateAbort_skip (env : CalibrationEnv) (s : ModuleState)
    (h : s.state = RunState.idle) : updateAbort env s = s := by
  unfold updateAbort
  rw [if_neg (fun hc => hc.2 h)]

theorem updateRecord_skip (env : CalibrationEnv) (s : ModuleState)
    (h : s.state ≠ RunState.recordSamples) : updateRecord env s = s := by
  unfold updateRecord
  rw [if_neg (fun hc => h hc.1)]

theorem updateOptTransition_skip (env : CalibrationEnv) (s : ModuleState)
    (h : env.targetState ≠ RunState.optimize) :
    updateOptTransition env s = s := by
  unfold updateOptTransition
  rw [if_neg (fun hc => h hc.1)]

theorem updateOpt_skip (env : CalibrationEnv) (s : ModuleState)
    (h : s.state ≠ RunState.optimize) : updateOpt env s = s := by
  unfold updateOpt
  rw [if_neg h]

/-- C9: the module writes the calibration output on every cycle (the written
value is the final `nextCameraCalibration`), and in every cycle that starts
idle with an idle target state the run state stays idle and the written
calibration equals the input calibration unchanged. -/
theorem update_writes_and_idle (env : CalibrationEnv) (s : ModuleState) :
    (update env s).2 = (update env s).1.nextCameraCalibration ∧
    (s.state = RunState.idle → env.targetState = RunState.idle →
      ((update env s).1.state = RunState.idle ∧
       (update env s).2 = env.theCameraCalibration)) := by
  constructor
  · rfl
  · intro hidle htarget
    have hne1 : env.targetState ≠ RunState.recordSamples := by
      rw [htarget]
      decide
    have hne2 : env.targetState ≠ RunState.optimize := by
      rw [htarget]
      decide
    obtain ⟨hs2, hc2⟩ := updateSampleConfiguration_preserves env
      { s with nextCameraCalibration := env.theCameraCalibration }
    have hs2i : (updateSampleConfiguration env
        { s with nextCameraCalibration := env.theCameraCalibration }).state =
        RunState.idle := hs2.trans hidle
    unfold update
    simp only []
    rw [updateStart_skip env _ hne1, updateAbort_skip env _ hs2i,
      updateRecord_skip env _ (by rw [hs2i]; decide),
      updateOptTransition_skip env _ hne2,
      updateOpt_skip env _ (by rw [hs2i]; decide)]
    exact ⟨hs2i, hc2⟩

/-- C9 (witness): the idle identity evaluated on the base fixture. -/
theorem update_writes_and_idle_witness :
    (update baseEnv baseState).1.state = RunState.idle ∧
    (update baseEnv baseState).2 = baseEnv.theCameraCalibration :=
  (update_writes_and_idle baseEnv baseState).2 rfl rfl

theorem processTriple_cases (env : CalibrationEnv) (cfg : SampleConfiguration)
    (doRecord : Bool) (range : Rangef) (acc : TripleAcc)
    (t : Nat × Nat × Nat) :
    ((processTriple env cfg doRecord range acc t).visible = acc.visible ∧
     (processTriple env cfg doRecord range acc t).samples = acc.samples) ∨
    TriplePasses env t := by
  unfold processTriple
  split
  case _ li lj lk h1 h2 h3 =>
    split_ifs with hd1 hd2 hmid hang <;>
      first
        | exact Or.inl ⟨rfl, rfl⟩
        | exact Or.inr ⟨li, lj, lk, h1, h2, h3, not_lt.mp hd1, not_lt.mp hd2,
            not_lt.mp (not_or.mp hmid).1, not_lt.mp (not_or.mp hmid).2⟩
  case _ =>
    exact Or.inl ⟨rfl, rfl⟩

theorem foldl_processTriple_gating (env : CalibrationEnv)
    (cfg : SampleConfiguration) (doRecord : Bool) (range : Rangef) :
    ∀ (l : List (Nat × Nat × Nat)) (acc : TripleAcc),
      ((l.foldl (processTriple env cfg doRecord range) acc).visible = true →
        acc.visible = true ∨ ∃ t ∈ l, TriplePasses env t) ∧
      ((l.foldl (processTriple env cfg doRecord range) acc).samples ≠
          acc.samples →
        ∃ t ∈ l, TriplePasses env t) := by
  intro l
  induction l with
  | nil =>
    intro acc
    exact ⟨fun h => Or.inl h, fun h => absurd rfl h⟩
  | cons x xs ih =>
    intro acc
    have hx := processTriple_cases env cfg doRecord range acc x
    obtain ⟨ih1, ih2⟩ := ih (processTriple env cfg doRecord range acc x)
    constructor
    · intro hv
      rw [List.foldl_cons] at hv
      rcases ih1 hv with h | ⟨t, ht, hp⟩
      · rcases hx with ⟨hveq, -⟩ | hp
        · exact Or.inl (hveq ▸ h)
        · exact Or.inr ⟨x, List.mem_cons_self x xs, hp⟩
      · exact Or.inr ⟨t, List.mem_cons_of_mem _ ht, hp⟩
    · intro hs
      rw [List.foldl_cons] at hs
      rcases hx with ⟨-, hseq⟩ | hp
      · rw [← hseq] at hs
        rcases ih2 hs with ⟨t, ht, hp⟩
        exact ⟨t, List.mem_cons_of_mem _ ht, hp⟩
      · exact ⟨x, List.mem_cons_self x xs, hp⟩

/-- C5 (amended): within the corner/parallel search, a triple `(i, j, k)` is
skipped unless at least one endpoint of line `i` lies within 100 units of the
perceived field-coordinate line of `j` and likewise of `k` (the source takes
the minimum over the two endpoints of `i`, in field coordinates, not both
endpoints in image coordinates), and unless neither `j`'s nor `k`'s segment
midpoint is nearer to the robot (by squared ground distance) than `i`'s;
whenever the search marks the required features visible or changes the sample
table, some triple passing these checks exists. -/
theorem cornerParallelSearch_gating (env : CalibrationEnv)
    (cfg : SampleConfiguration) (doRecord : Bool) (s : ModuleState)
    (hvis : s.allRequiredFeaturesVisible = false)
    (h : (cornerParallelSearch env cfg doRecord s).allRequiredFeaturesVisible =
          true ∨
         (cornerParallelSearch env cfg doRecord s).samples ≠ s.samples) :
    ∃ t ∈ tripleIndices env.lines.length, TriplePasses env t := by
  unfold cornerParallelSearch at h
  simp only [] at h
  by_cases hg : 3 ≤ env.lines.length ∧ env.lines.length ≤ 8 ∧
      (cfg.needToRecord s.samples SampleType.cornerAngle = true ∨
       cfg.needToRecord s.samples SampleType.parallelAngle = true ∨
       cfg.needToRecord s.samples SampleType.parallelLinesDistance = true) ∧
      ¬(cfg.needToRecord s.samples SampleType.goalAreaDistance = true ∨
        cfg.needToRecord s.samples SampleType.groundLineDistance = true)
  case neg =>
    rw [if_neg hg] at h
    rcases h with h | h
    · exact absurd (hvis.symm.trans h) Bool.false_ne_true
    · exact absurd rfl h
  case pos =>
    rw [if_pos hg] at h
    simp only [apply_ite ModuleState.allRequiredFeaturesVisible,
      apply_ite ModuleState.samples, ite_self] at h
    obtain ⟨f1, f2⟩ := foldl_processTriple_gating env cfg doRecord
      (if cfg.camera = CameraSide.upper then s.parallelDisRangeUpper
       else s.parallelDisRangeLower)
      (tripleIndices env.lines.length)
      ⟨false, false, s.samples, s.allRequiredFeaturesVisible⟩
    rcases h with h | h
    · rcases f1 h with h' | he
      · exact absurd (hvis.symm.trans h') Bool.false_ne_true
      · exact he
    · exact f2 h

@[simp] theorem Vec2_add_x (a b : Vec2) : (a + b).x = a.x + b.x := rfl

@[simp] theorem Vec2_add_y (a b : Vec2) : (a + b).y = a.y + b.y := rfl

@[simp] theorem Vec2_sub_x (a b : Vec2) : (a - b).x = a.x - b.x := rfl

@[simp] theorem Vec2_sub_y (a b : Vec2) : (a - b).y = a.y - b.y := rfl

theorem markLineSearch_noMark (env : CalibrationEnv)
    (cfg : SampleConfiguration) (doRecord : Bool) (s : ModuleState)
    (h : env.penaltyMarkWasSeen = false) : markLineSearch env cfg doRecord s = s := by
  unfold markLineSearch
  simp only []
  rw [if_neg]
  rintro ⟨h1, -⟩
  rw [h] at h1
  exact Bool.noConfusion h1

theorem processTriple_corner_pass (acc : TripleAcc) (range : Rangef) :
    processTriple envCorner cfgParallel false range acc (0, 1, 2) =
      { acc with visible := true } := by
  have hg0 : envCorner.lines.get? 0 = some lineShort := rfl
  have hg1 : envCorner.lines.get? 1 = some lineLongA := rfl
  have hg2 : envCorner.lines.get? 2 = some lineLongB := rfl
  have hcalc : envCorner.calcAngleDeg = rightAngleOracle := rfl
  simp only [processTriple, hg0, hg1, hg2, hcalc]
  norm_num [lineShort, lineLongA, lineLongB, distToEdgeSq, cross, normSq,
    smul, rightAngleOracle, min_def, instSubVec2, instAddVec2]

theorem processTriple_corner_skipA (acc : TripleAcc) (range : Rangef) :
    processTriple envCorner cfgParallel false range acc (1, 0, 2) = acc := by
  have hg0 : envCorner.lines.get? 0 = some lineShort := rfl
  have hg1 : envCorner.lines.get? 1 = some lineLongA := rfl
  have hg2 : envCorner.lines.get? 2 = some lineLongB := rfl
  simp only [processTriple, hg0, hg1, hg2]
  norm_num [lineShort, lineLongA, lineLongB, distToEdgeSq, cross, normSq,
    smul, min_def, instSubVec2, instAddVec2]

theorem processTriple_corner_skipB (acc : TripleAcc) (range : Rangef) :
    processTriple envCorner cfgParallel false range acc (2, 0, 1) = acc := by
  have hg0 : envCorner.lines.get? 0 = some lineShort := rfl
  have hg1 : envCorner.lines.get? 1 = some lineLongA := rfl
  have hg2 : envCorner.lines.get? 2 = some lineLongB := rfl
  simp only [processTriple, hg0, hg1, hg2]
  norm_num [lineShort, lineLongA, lineLongB, distToEdgeSq, cross, normSq,
    smul, min_def, instSubVec2, instAddVec2]

theorem cornerParallelSearch_fixture :
    cornerParallelSearch envCorner cfgParallel false stateCorner =
      { stateCorner with allRequiredFeaturesVisible := true } := by
  have ht : tripleIndices envCorner.lines.length =
      [(0, 1, 2), (1, 0, 2), (2, 0, 1)] := by decide
  have hg : 3 ≤ envCorner.lines.length ∧ envCorner.lines.length ≤ 8 ∧
      (cfgParallel.needToRecord stateCorner.samples SampleType.cornerAngle =
          true ∨
       cfgParallel.needToRecord stateCorner.samples SampleType.parallelAngle =
          true ∨
       cfgParallel.needToRecord stateCorner.samples
          SampleType.parallelLinesDistance = true) ∧
      ¬(cfgParallel.needToRecord stateCorner.samples
          SampleType.goalAreaDistance = true ∨
        cfgParallel.needToRecord stateCorner.samples
          SampleType.groundLineDistance = true) := by decide
  unfold cornerParallelSearch
  simp only [ht, List.foldl_cons, List.foldl_nil]
  rw [processTriple_corner_pass, processTriple_corner_skipA,
    processTriple_corner_skipB, if_pos hg]
  rfl

theorem recordSamples_fixture :
    recordSamples envCorner stateCorner =
      { stateCorner with allRequiredFeaturesVisible := true } := by
  have houts : anySampleOutstanding cfgParallel
      ({ stateCorner with allRequiredFeaturesVisible := true } :
        ModuleState).samples = true := by decide
  have step1 : recordSamples envCorner stateCorner =
      (if anySampleOutstanding cfgParallel
          (markLineSearch envCorner cfgParallel (doRecordOf envCorner)
            (cornerParallelSearch envCorner cfgParallel (doRecordOf envCorner)
              { stateCorner with
                allRequiredFeaturesVisible := false })).samples = true then
        markLineSearch envCorner cfgParallel (doRecordOf envCorner)
          (cornerParallelSearch envCorner cfgParallel (doRecordOf envCorner)
            { stateCorner with allRequiredFeaturesVisible := false })
      else
        { markLineSearch envCorner cfgParallel (doRecordOf envCorner)
            (cornerParallelSearch envCorner cfgParallel (doRecordOf envCorner)
              { stateCorner with allRequiredFeaturesVisible := false }) with
          numOfDiscardedParallelLines := 0,
          numOfDiscardedGoalAreaLines := 0,
          numOfDiscardedGroundLines := 0,
          allRequiredFeaturesVisible := true }) := rfl
  rw [step1]
  rw [show ({ stateCorner with allRequiredFeaturesVisible := false } :
    ModuleState) = stateCorner from rfl]
  rw [show doRecordOf envCorner = false from rfl]
  rw [cornerParallelSearch_fixture]
  rw [markLineSearch_noMark envCorner cfgParallel false _ rfl]
  rw [if_pos houts]

/-- C5 (counterexample): on a concrete cycle the corner/parallel search marks
the required features visible via the triple (0, 1, 2) although no triple of
the cycle satisfies the claim's check that both endpoints of line `i` lie
within 100 image-distance units of both lines `j` and `k` — the source checks
the minimum endpoint distance against the perceived field-coordinate lines
instead. -/
theorem recordSamples_imageDistance_counterexample :
    (recordSamples envCorner stateCorner).allRequiredFeaturesVisible = true ∧
    ∀ t ∈ tripleIndices envCorner.lines.length,
      ¬ ClaimedTripleCheck envCorner t := by
  have hg0 : envCorner.lines.get? 0 = some lineShort := rfl
  have hg1 : envCorner.lines.get? 1 = some lineLongA := rfl
  have hg2 : envCorner.lines.get? 2 = some lineLongB := rfl
  constructor
  · rw [recordSamples_fixture]
  · have ht : tripleIndices envCorner.lines.length =
        [(0, 1, 2), (1, 0, 2), (2, 0, 1)] := by decide
    rw [ht]
    intro t htm
    simp only [List.mem_cons, List.not_mem_nil, or_false] at htm
    rcases htm with rfl | rfl | rfl
    · intro hc
      simp only [ClaimedTripleCheck, hg0, hg1, hg2] at hc
      obtain ⟨h1, -⟩ := hc
      norm_num [imgLine, distToEdgeSq, cross, normSq, lineShort, lineLongA,
        lineLongB] at h1
    · intro hc
      simp only [ClaimedTripleCheck, hg0, hg1, hg2] at hc
      obtain ⟨-, -, h3, -⟩ := hc
      norm_num [imgLine, distToEdgeSq, cross, normSq, lineShort, lineLongA,
        lineLongB] at h3
    · intro hc
      simp only [ClaimedTripleCheck, hg0, hg1, hg2] at hc
      obtain ⟨-, -, h3, -⟩ := hc
      norm_num [imgLine, distToEdgeSq, cross, normSq, lineShort, lineLongA,
        lineLongB] at h3

/-- C5 (witness): on the concrete fixture the search marks visibility, and a
triple passing the source's checks exists. -/
theorem cornerParallelSearch_gating_witness :
    ∃ t ∈ tripleIndices envCorner.lines.length, TriplePasses envCorner t :=
  cornerParallelSearch_gating envCorner cfgParallel false stateCorner rfl
    (Or.inl (by rw [cornerParallelSearch_fixture]))

end AutoCalib
